import Mathlib

/-!
Glow: storage classification (`WeightVar`) and the backend test helpers.

A verification development over two sources of the repository:

* `include/glow/IR/Instrs.h`: the class `WeightVar`, a named and typed region
  of memory carrying a mutability tag and a visibility tag;
* `tests/unittests/BackendTestUtils.cpp`: the helpers `infer*Net` and
  `train*Net`, which build a small network on a fresh `ExecutionEngine`,
  compile it, run it and copy the saved result out.

The helpers are straight-line code over an API (`Module`, `Function`,
`ExecutionEngine`) whose implementation is elsewhere, so each helper is
embedded as the ordered list of the API calls it makes that create or change
something, in program order, with the helper's arguments as the parameters of
the embedding. Locals keep their identifiers: two nodes with the same name
string (the two `"relu"` of `inferBasicFCNet`) stay distinct.
Floating literals (`0.03`, `1.125`) stand for the decimal rationals they are
written as; rounding is not modelled.
-/

namespace glow

/-! ## Types of tensors -/

/-- Modelled from the spec: the element kinds of a tensor type. The
enumeration is declared in `glow/Base/Type.h`, which is not among the sources;
the sources name `ElemKind::Int8QTy` and `ElemKind::IndexTy`, the spec speaks
of an element kind that may be a quantized kind. -/
inductive ElemKind where
  | FloatTy
  | Int8QTy
  | Int32QTy
  | IndexTy
deriving DecidableEq, Repr

/-- Modelled from the spec: the tensor type `glow::Type`, that is what
`getElementType()`, `dims()`, `getScale()` and `getOffset()` read in
`BackendTestUtils.cpp`. The class is declared in `glow/Base/Type.h`; the
spec's shape descriptor has dimensions, element kind and scale/offset. -/
structure Ty where
  elementType : ElemKind
  dims : List Nat
  scale : ℚ
  offset : Int
deriving DecidableEq

/-- Accessor `Type::getScale()`. -/
def Ty.getScale (t : Ty) : ℚ := t.scale

/-- Accessor `Type::getOffset()`. -/
def Ty.getOffset (t : Ty) : Int := t.offset

/-- Modelled from the spec: the predicate `Type::isQuantizedType()`, true on
the quantized element kinds. -/
def Ty.isQuantizedType (t : Ty) : Bool :=
  t.elementType == ElemKind.Int8QTy || t.elementType == ElemKind.Int32QTy

/-- A `TypeRef` as the sources obtain one: the address of a tensor's type
(`&T->getType()`), or the result of one of the two `uniqueType` overloads,
recorded with the arguments of the call. -/
inductive TypeRef where
  | ofType (t : Ty)
  | uniqueType (elemTy : ElemKind) (dims : List Nat)
  | uniqueTypeQ (elemTy : ElemKind) (dims : List Nat) (scale : ℚ) (offset : Int)
deriving DecidableEq

/-! ## `WeightVar` (include/glow/IR/Instrs.h) -/

/-- The enumeration `WeightVar::MutabilityKind`. -/
inductive WeightVar.MutabilityKind where
  /-- A read-only region of memory. -/
  | Constant
  /-- A read/write region of memory. -/
  | Mutable
deriving DecidableEq, Repr

/-- Modelled from the spec: the enumeration `VisibilityKind`. It is declared
in `glow/Graph/Nodes.h`; the sources name `VisibilityKind::Public`, the spec
gives the two tags `Public` and `Private`. -/
inductive VisibilityKind where
  | Public
  | Private
deriving DecidableEq, Repr

/-- The enumeration `Kinded::Kind`: `WeightVarKind` is the enumerator the
header names, every other enumerator is kept by its ordinal. -/
inductive Kind where
  | WeightVarKind
  | OtherKind (ordinal : Nat)
deriving DecidableEq, Repr

/-- The base `Kinded`: an object that knows its kind. -/
structure Kinded where
  kind : Kind
deriving DecidableEq

/-- Accessor `Kinded::getKind()`. -/
def Kinded.getKind (k : Kinded) : Kind := k.kind

/-- Modelled from the spec: the base class `Value`, as the constructor call
`Value(name, Ty, kind)` initialises it. The class is declared in
`glow/IR/IR.h`; a storage location has a name and a type. -/
structure Value extends Kinded where
  name : String
  Ty : TypeRef
deriving DecidableEq

/-- Accessor `Value::getName()`. -/
def Value.getName (v : Value) : String := v.name

/-- Accessor `Value::getType()`. -/
def Value.getType (v : Value) : TypeRef := v.Ty

/-- The class `WeightVar`: a `Value` with the two private members `mut_` and
`vis_`. -/
structure WeightVar extends Value where
  /-- The mutability mode. -/
  mut_ : WeightVar.MutabilityKind
  /-- The visibility of the WeightVar. -/
  vis_ : VisibilityKind
deriving DecidableEq

/-- The constructor `WeightVar::WeightVar(name, Ty, mut, vis)`:
`Value(name, Ty, Kinded::Kind::WeightVarKind), mut_(mut), vis_(vis)`. -/
def WeightVar.ctor (name : String) (Ty : TypeRef) (mutability : WeightVar.MutabilityKind)
    (vis : VisibilityKind) : WeightVar :=
  { kind := Kind.WeightVarKind, name := name, Ty := Ty, mut_ := mutability, vis_ := vis }

/-- The static `WeightVar::classof(const Kinded *k)`. -/
def WeightVar.classof (k : Kinded) : Bool :=
  k.getKind == Kind.WeightVarKind

/-- Member `getMutability() const`. -/
def WeightVar.getMutability (w : WeightVar) : WeightVar.MutabilityKind := w.mut_

/-- Member `setMutability(mut)`: `mut_ = mut`. -/
def WeightVar.setMutability (w : WeightVar) (mutability : WeightVar.MutabilityKind) : WeightVar :=
  { w with mut_ := mutability }

/-- Member `getVisibility() const`. -/
def WeightVar.getVisibility (w : WeightVar) : VisibilityKind := w.vis_

/-- Member `setVisibility(vis)`: `vis_ = vis`. -/
def WeightVar.setVisibility (w : WeightVar) (vis : VisibilityKind) : WeightVar :=
  { w with vis_ := vis }

/-- Member `verify() const {}`: the body is empty, so the call returns
normally on every object; `Except.error` would stand for a failed check. -/
def WeightVar.verify (_w : WeightVar) : Except String Unit :=
  Except.ok ()

/-- The member functions of `WeightVar` that can be called on an object, with
their arguments. -/
inductive WeightVar.Op where
  | getMutabilityStr
  | getMutability
  | setMutability (mutability : WeightVar.MutabilityKind)
  | getVisibility
  | setVisibility (vis : VisibilityKind)
  | dump
  | verify
deriving DecidableEq

/-- The object after one member call. The `const` members (`getMutabilityStr`,
`getMutability`, `getVisibility`, `dump`, `verify`) cannot assign `mut_` or
`vis_`, neither of which is declared `mutable`; what `getMutabilityStr` returns
and what `dump` prints are defined outside the header and are not part of the
object. -/
def WeightVar.step (w : WeightVar) : WeightVar.Op → WeightVar
  | WeightVar.Op.getMutabilityStr => w
  | WeightVar.Op.getMutability => w
  | WeightVar.Op.setMutability mutability => w.setMutability mutability
  | WeightVar.Op.getVisibility => w
  | WeightVar.Op.setVisibility vis => w.setVisibility vis
  | WeightVar.Op.dump => w
  | WeightVar.Op.verify => w

/-- The object after a sequence of member calls, first call first. -/
def WeightVar.run (w : WeightVar) (ops : List WeightVar.Op) : WeightVar :=
  ops.foldl WeightVar.step w

/-- The argument of the most recent `setMutability` in a sequence of calls. -/
def lastSetMutability : List WeightVar.Op → Option WeightVar.MutabilityKind
  | [] => none
  | op :: rest =>
    match lastSetMutability rest with
    | some m => some m
    | none =>
      match op with
      | WeightVar.Op.setMutability m => some m
      | _ => none

/-- The argument of the most recent `setVisibility` in a sequence of calls. -/
def lastSetVisibility : List WeightVar.Op → Option VisibilityKind
  | [] => none
  | op :: rest =>
    match lastSetVisibility rest with
    | some v => some v
    | none =>
      match op with
      | WeightVar.Op.setVisibility v => some v
      | _ => none

/-! ## The API the test helpers call (tests/unittests/BackendTestUtils.cpp) -/

/-- The enumeration `BackendKind`, declared with the execution engine and not
among the sources: an enumerator is kept by its ordinal. -/
structure BackendKind where
  ordinal : Nat
deriving DecidableEq

/-- The enumeration `CompilationMode`, with the two enumerators the helpers
pass to `EE.compile`. -/
inductive CompilationMode where
  | Train
  | Infer
deriving DecidableEq, Repr

/-- The enumeration `Variable::TrainKind`: `None` is the enumerator the helpers
name, every other enumerator is kept by its ordinal. -/
inductive Variable.TrainKind where
  | None
  | OtherKind (ordinal : Nat)
deriving DecidableEq, Repr

/-- A `Tensor *` argument of a helper. The helpers read its type and hand the
pointer to the engine; they never read its elements, which are left out. -/
structure Tensor where
  type : Ty
deriving DecidableEq

/-- Accessor `Tensor::getType()`. -/
def Tensor.getType (T : Tensor) : Ty := T.type

/-- Accessor `Tensor::getElementType()`. -/
def Tensor.getElementType (T : Tensor) : ElemKind := T.type.elementType

/-- Accessor `Tensor::dims()`. -/
def Tensor.dims (T : Tensor) : List Nat := T.type.dims

/-- A graph `Variable` as a `createVariable` call describes it. The visibility
and the train kind are `none` when the call passes no such argument, so that
the defaults of the declaration (not among the sources) apply. -/
structure Variable where
  type : TypeRef
  name : String
  visibility : Option VisibilityKind
  train : Option Variable.TrainKind
deriving DecidableEq

/-- The call `mod.createVariable(T, name, visibility, train)`. -/
def Module.createVariable (T : TypeRef) (name : String) (visibility : VisibilityKind)
    (train : Variable.TrainKind) : Variable :=
  { type := T, name := name, visibility := some visibility, train := some train }

/-- The call `mod.createVariable(elemTy, dims, name)`: a variable whose type is
given by element kind and dimensions, with no visibility and no train kind
passed. -/
def Module.createVariableOfKind (elemTy : ElemKind) (dims : List Nat) (name : String) :
    Variable :=
  { type := TypeRef.uniqueType elemTy dims, name := name, visibility := none, train := none }

/-- The preprocessor definition `VarFrom(T)`:
`mod.createVariable(&T->getType(), #T, VisibilityKind::Public, Variable::TrainKind::None)`.
The first argument is the identifier `T` of the tensor parameter (what `#T`
expands to), the second the tensor it points to. -/
def VarFrom (T : String) (tensor : Tensor) : Variable :=
  Module.createVariable (TypeRef.ofType tensor.getType) T VisibilityKind.Public
    Variable.TrainKind.None

/-- The operator nodes the helpers create, one per `F->create...` member. -/
inductive NodeKind where
  | BatchedAdd | BatchedReduceAdd | Conv | Save | Reshape | SoftMax | Gather
  | LocalResponseNormalization | FullyConnected | MatMul | Max | Min | PoolAvg
  | PoolMax | Quantize | RescaleQuantized | Dequantize | RELU | Select | Sigmoid
  | Tanh | Transpose | Add | Regression | Mul | Sub
deriving DecidableEq, Repr

/-- An argument of a `F->create...` call after the node's name. -/
inductive Arg where
  /-- A node or variable, by the identifier of the local that holds it. -/
  | value (x : String)
  /-- A `TypeRef`. -/
  | type (T : TypeRef)
  /-- An integer argument. -/
  | size (n : Nat)
  /-- A floating argument. -/
  | real (q : ℚ)
  /-- A list of dimensions or of axis indices. -/
  | shape (dims : List Nat)
  /-- The expression `dims()[i]`. -/
  | dimAt (dims : List Nat) (i : Nat)
deriving DecidableEq

/-- The accessors `getFilter()`, `getBias()`, `getWeights()` of a node. -/
inductive Member where
  | Filter
  | Bias
  | Weights
deriving DecidableEq, Repr

/-- One API call of a helper. Locals, functions and tensor parameters are
named by their identifiers in the source. -/
inductive Stmt where
  /-- The declaration `ExecutionEngine EE(kind);`. -/
  | newEngine (kind : BackendKind)
  /-- The assignment `EE.getConfig().learningRate = q;`. -/
  | setLearningRate (q : ℚ)
  /-- The assignment `EE.getConfig().momentum = q;`. -/
  | setMomentum (q : ℚ)
  /-- The assignment `EE.getConfig().L2Decay = q;`. -/
  | setL2Decay (q : ℚ)
  /-- The declaration `Function *F = mod.createFunction(name);`. -/
  | createFunction (F : String) (name : String)
  /-- The declaration `x = mod.createVariable(...)`. -/
  | createVariable (x : String) (v : Variable)
  /-- The declaration `x = F->create<kind>(name, args...)`. -/
  | createNode (x : String) (F : String) (kind : NodeKind) (name : String) (args : List Arg)
  /-- The call `cast<Variable>(node->get<member>())->copyFrom(src);`. -/
  | copyFrom (node : String) (member : Member) (src : String)
  /-- The call `cast<Variable>(node->get<member>())->getHandle().clear(val);`. -/
  | clear (node : String) (member : Member) (val : ℚ)
  /-- The declaration `Function *TF = glow::differentiate(F, EE.getConfig());`. -/
  | differentiate (TF : String) (F : String)
  /-- The call `EE.compile(mode, F);`. -/
  | compile (mode : CompilationMode) (F : String)
  /-- The call `EE.run({vars...}, {tensors...});`. -/
  | run (vars : List String) (tensors : List String)
  /-- The call `EE.runBatch(n, {vars...}, {tensors...});`. -/
  | runBatch (n : Nat) (vars : List String) (tensors : List String)
  /-- The call `dst->copyFrom(&result->getVariable()->getPayload());`. -/
  | copyResult (dst : String) (result : String)
deriving DecidableEq

/-- A helper applied to its arguments: the tensor parameters by identifier, and
the API calls in program order. -/
structure Program where
  params : List (String × Tensor)
  body : List Stmt

/-! ## The helpers, in source order -/

/-- Helper `inferBatchedAddNet(batch, slice, out, kind)`. Both branches of the
`if` create the three variables and differ in the `uniqueType` overload that
gives `OT`. -/
def inferBatchedAddNet (batch slice out : Tensor) (kind : BackendKind) : Program :=
  let branch : List Stmt × TypeRef :=
    if batch.getType.isQuantizedType then
      ([Stmt.createVariable "batchVar" (VarFrom "batch" batch),
        Stmt.createVariable "sliceVar" (VarFrom "slice" slice),
        Stmt.createVariable "outVar" (VarFrom "out" out)],
       TypeRef.uniqueTypeQ out.getElementType out.dims out.getType.getScale
         out.getType.getOffset)
    else
      ([Stmt.createVariable "batchVar" (VarFrom "batch" batch),
        Stmt.createVariable "sliceVar" (VarFrom "slice" slice),
        Stmt.createVariable "outVar" (VarFrom "out" out)],
       TypeRef.uniqueType out.getElementType out.dims)
  { params := [("batch", batch), ("slice", slice), ("out", out)],
    body :=
      [Stmt.newEngine kind,
       Stmt.createFunction "F" "main"] ++
      branch.1 ++
      [Stmt.createNode "batchedadd" "F" NodeKind.BatchedAdd "batchedadd"
         [Arg.type branch.2, Arg.value "batchVar", Arg.value "sliceVar"],
       Stmt.createNode "result" "F" NodeKind.Save "ret"
         [Arg.value "batchedadd", Arg.value "outVar"],
       Stmt.compile CompilationMode.Infer "F",
       Stmt.run ["batchVar", "sliceVar"] ["batch", "slice"],
       Stmt.copyResult "out" "result"] }

/-- Helper `inferBatchedReduceAddNet(inputs, out, kind)`. -/
def inferBatchedReduceAddNet (inputs out : Tensor) (kind : BackendKind) : Program :=
  { params := [("inputs", inputs), ("out", out)],
    body :=
      [Stmt.newEngine kind,
       Stmt.createFunction "F" "main",
       Stmt.createVariable "var" (VarFrom "inputs" inputs),
       Stmt.createNode "batchedreduce" "F" NodeKind.BatchedReduceAdd "batchedreduce"
         [Arg.value "var"],
       Stmt.createNode "result" "F" NodeKind.Save "ret" [Arg.value "batchedreduce"],
       Stmt.compile CompilationMode.Infer "F",
       Stmt.run ["var"] ["inputs"],
       Stmt.copyResult "out" "result"] }

/-- Helper `inferConvNet(inputs, filter, bias, out, kind)`. Both branches of
the `if` create the four variables and differ in the `uniqueType` overload that
gives `OT`. -/
def inferConvNet (inputs filter bias out : Tensor) (kind : BackendKind) : Program :=
  let branch : List Stmt × TypeRef :=
    if inputs.getType.isQuantizedType then
      ([Stmt.createVariable "inputVar" (VarFrom "inputs" inputs),
        Stmt.createVariable "filterVar" (VarFrom "filter" filter),
        Stmt.createVariable "biasVar" (VarFrom "bias" bias),
        Stmt.createVariable "outVar" (VarFrom "out" out)],
       TypeRef.uniqueTypeQ out.getElementType out.dims out.getType.getScale
         out.getType.getOffset)
    else
      ([Stmt.createVariable "inputVar" (VarFrom "inputs" inputs),
        Stmt.createVariable "filterVar" (VarFrom "filter" filter),
        Stmt.createVariable "biasVar" (VarFrom "bias" bias),
        Stmt.createVariable "outVar" (VarFrom "out" out)],
       TypeRef.uniqueType out.getElementType out.dims)
  { params := [("inputs", inputs), ("filter", filter), ("bias", bias), ("out", out)],
    body :=
      [Stmt.newEngine kind,
       Stmt.createFunction "F" "main"] ++
      branch.1 ++
      [Stmt.createNode "conv" "F" NodeKind.Conv "conv"
         [Arg.value "inputVar", Arg.value "filterVar", Arg.value "biasVar",
          Arg.type branch.2, Arg.size 5, Arg.size 3, Arg.size 4, Arg.size 1],
       Stmt.createNode "result" "F" NodeKind.Save "ret"
         [Arg.value "conv", Arg.value "outVar"],
       Stmt.compile CompilationMode.Infer "F",
       Stmt.run ["inputVar", "filterVar", "biasVar"] ["inputs", "filter", "bias"],
       Stmt.copyResult "out" "result"] }

/-- Helper `trainConvNet(inputs, kernel1, bias1, kernel2, bias2, selected,
shape1, shape2, out, kind)`. -/
def trainConvNet (inputs kernel1 bias1 kernel2 bias2 selected : Tensor)
    (shape1 shape2 : List Nat) (out : Tensor) (kind : BackendKind) : Program :=
  { params := [("inputs", inputs), ("kernel1", kernel1), ("bias1", bias1),
      ("kernel2", kernel2), ("bias2", bias2), ("selected", selected), ("out", out)],
    body :=
      [Stmt.newEngine kind,
       Stmt.setLearningRate (3 / 100),
       Stmt.setMomentum (3 / 10),
       Stmt.setL2Decay (1 / 100),
       Stmt.createFunction "F" "main",
       Stmt.createVariable "var1" (VarFrom "inputs" inputs),
       Stmt.createVariable "var2" (VarFrom "selected" selected),
       Stmt.createNode "conv1" "F" NodeKind.Conv "conv1"
         [Arg.value "var1", Arg.size 3, Arg.size 3, Arg.size 2, Arg.size 1, Arg.size 1],
       Stmt.copyFrom "conv1" Member.Filter "kernel1",
       Stmt.copyFrom "conv1" Member.Bias "bias1",
       Stmt.createNode "reshape1" "F" NodeKind.Reshape "reshape1"
         [Arg.value "conv1", Arg.shape shape1],
       Stmt.createNode "conv2" "F" NodeKind.Conv "conv2"
         [Arg.value "reshape1", Arg.size 2, Arg.size 2, Arg.size 2, Arg.size 0, Arg.size 1],
       Stmt.copyFrom "conv2" Member.Filter "kernel2",
       Stmt.copyFrom "conv2" Member.Bias "bias2",
       Stmt.createNode "reshape2" "F" NodeKind.Reshape "reshape2"
         [Arg.value "conv2", Arg.shape shape2],
       Stmt.createNode "softmax" "F" NodeKind.SoftMax "softmax"
         [Arg.value "reshape2", Arg.value "var2"],
       Stmt.createNode "result" "F" NodeKind.Save "ret" [Arg.value "softmax"],
       Stmt.differentiate "TF" "F",
       Stmt.compile CompilationMode.Train "TF",
       Stmt.runBatch 8 ["var1", "var2"] ["inputs", "selected"],
       Stmt.compile CompilationMode.Infer "F",
       Stmt.run ["var1", "var2"] ["inputs", "selected"],
       Stmt.copyResult "out" "result"] }

/-- Helper `inferGatherNet(data, indices, dest, kind)`. -/
def inferGatherNet (data indices dest : Tensor) (kind : BackendKind) : Program :=
  { params := [("data", data), ("indices", indices), ("dest", dest)],
    body :=
      [Stmt.newEngine kind,
       Stmt.createFunction "F" "main",
       Stmt.createVariable "dataV" (VarFrom "data" data),
       Stmt.createVariable "indicesV" (VarFrom "indices" indices),
       Stmt.createNode "gather" "F" NodeKind.Gather "gather"
         [Arg.value "dataV", Arg.value "indicesV"],
       Stmt.createNode "result" "F" NodeKind.Save "ret" [Arg.value "gather"],
       Stmt.compile CompilationMode.Infer "F",
       Stmt.run ["dataV", "indicesV"] ["data", "indices"],
       Stmt.copyResult "dest" "result"] }

/-- Helper `inferLocalResponseNormalizationNet(inputs, out, kind)`. -/
def inferLocalResponseNormalizationNet (inputs out : Tensor) (kind : BackendKind) :
    Program :=
  { params := [("inputs", inputs), ("out", out)],
    body :=
      [Stmt.newEngine kind,
       Stmt.createFunction "F" "main",
       Stmt.createVariable "var" (VarFrom "inputs" inputs),
       Stmt.createNode "lrn" "F" NodeKind.LocalResponseNormalization "lrn"
         [Arg.value "var", Arg.size 5, Arg.real 3, Arg.real (1 / 2), Arg.real (3 / 2)],
       Stmt.createNode "result" "F" NodeKind.Save "ret" [Arg.value "lrn"],
       Stmt.compile CompilationMode.Infer "F",
       Stmt.run ["var"] ["inputs"],
       Stmt.copyResult "out" "result"] }

/-- Helper `trainLocalResponseNormalizationNet(inputs, weights, bias, selected,
shape1, shape2, out, kind)`. -/
def trainLocalResponseNormalizationNet (inputs weights bias selected : Tensor)
    (shape1 shape2 : List Nat) (out : Tensor) (kind : BackendKind) : Program :=
  { params := [("inputs", inputs), ("weights", weights), ("bias", bias),
      ("selected", selected), ("out", out)],
    body :=
      [Stmt.newEngine kind,
       Stmt.setLearningRate (6 / 100),
       Stmt.setMomentum (1 / 10),
       Stmt.setL2Decay (1 / 100),
       Stmt.createFunction "F" "main",
       Stmt.createVariable "var1" (VarFrom "inputs" inputs),
       Stmt.createVariable "var2" (VarFrom "selected" selected),
       Stmt.createNode "fc" "F" NodeKind.FullyConnected "fc"
         [Arg.value "var1", Arg.dimAt bias.dims 0],
       Stmt.copyFrom "fc" Member.Weights "weights",
       Stmt.copyFrom "fc" Member.Bias "bias",
       Stmt.createNode "reshape1" "F" NodeKind.Reshape "reshape1"
         [Arg.value "fc", Arg.shape shape1],
       Stmt.createNode "lrn" "F" NodeKind.LocalResponseNormalization "lrn"
         [Arg.value "reshape1", Arg.size 2, Arg.real 2, Arg.real (1 / 2), Arg.real 1],
       Stmt.createNode "reshape2" "F" NodeKind.Reshape "reshape2"
         [Arg.value "lrn", Arg.shape shape2],
       Stmt.createNode "softmax" "F" NodeKind.SoftMax "softmax"
         [Arg.value "reshape2", Arg.value "var2"],
       Stmt.createNode "result" "F" NodeKind.Save "ret" [Arg.value "softmax"],
       Stmt.differentiate "TF" "F",
       Stmt.compile CompilationMode.Train "TF",
       Stmt.runBatch 8 ["var1", "var2"] ["inputs", "selected"],
       Stmt.compile CompilationMode.Infer "F",
       Stmt.runBatch 1 ["var1", "var2"] ["inputs", "selected"],
       Stmt.copyResult "out" "result"] }

/-- Helper `inferMatMulNet(lhs, rhs, out, kind)`. Both branches of the `if`
create the three variables and differ in the `uniqueType` overload that gives
`OT`. -/
def inferMatMulNet (lhs rhs out : Tensor) (kind : BackendKind) : Program :=
  let branch : List Stmt × TypeRef :=
    if lhs.getType.isQuantizedType then
      ([Stmt.createVariable "lhsVar" (VarFrom "lhs" lhs),
        Stmt.createVariable "rhsVar" (VarFrom "rhs" rhs),
        Stmt.createVariable "outVar" (VarFrom "out" out)],
       TypeRef.uniqueTypeQ out.getElementType out.dims out.getType.getScale
         out.getType.getOffset)
    else
      ([Stmt.createVariable "lhsVar" (VarFrom "lhs" lhs),
        Stmt.createVariable "rhsVar" (VarFrom "rhs" rhs),
        Stmt.createVariable "outVar" (VarFrom "out" out)],
       TypeRef.uniqueType out.getElementType out.dims)
  { params := [("lhs", lhs), ("rhs", rhs), ("out", out)],
    body :=
      [Stmt.newEngine kind,
       Stmt.createFunction "F" "main"] ++
      branch.1 ++
      [Stmt.createNode "matmul" "F" NodeKind.MatMul "matmul"
         [Arg.type branch.2, Arg.value "lhsVar", Arg.value "rhsVar"],
       Stmt.createNode "result" "F" NodeKind.Save "ret"
         [Arg.value "matmul", Arg.value "outVar"],
       Stmt.compile CompilationMode.Infer "F",
       Stmt.run ["lhsVar", "rhsVar"] ["lhs", "rhs"],
       Stmt.copyResult "out" "result"] }

/-- Helper `inferMaxNet(inputs1, inputs2, out, kind)`. -/
def inferMaxNet (inputs1 inputs2 out : Tensor) (kind : BackendKind) : Program :=
  { params := [("inputs1", inputs1), ("inputs2", inputs2), ("out", out)],
    body :=
      [Stmt.newEngine kind,
       Stmt.createFunction "F" "main",
       Stmt.createVariable "var1" (VarFrom "inputs1" inputs1),
       Stmt.createVariable "var2" (VarFrom "inputs2" inputs2),
       Stmt.createNode "max" "F" NodeKind.Max "max" [Arg.value "var1", Arg.value "var2"],
       Stmt.createNode "result" "F" NodeKind.Save "ret" [Arg.value "max"],
       Stmt.compile CompilationMode.Infer "F",
       Stmt.run ["var1", "var2"] ["inputs1", "inputs2"],
       Stmt.copyResult "out" "result"] }

/-- Helper `inferMinNet(inputs1, inputs2, out, kind)`. -/
def inferMinNet (inputs1 inputs2 out : Tensor) (kind : BackendKind) : Program :=
  { params := [("inputs1", inputs1), ("inputs2", inputs2), ("out", out)],
    body :=
      [Stmt.newEngine kind,
       Stmt.createFunction "F" "main",
       Stmt.createVariable "var1" (VarFrom "inputs1" inputs1),
       Stmt.createVariable "var2" (VarFrom "inputs2" inputs2),
       Stmt.createNode "min" "F" NodeKind.Min "min" [Arg.value "var1", Arg.value "var2"],
       Stmt.createNode "result" "F" NodeKind.Save "ret" [Arg.value "min"],
       Stmt.compile CompilationMode.Infer "F",
       Stmt.run ["var1", "var2"] ["inputs1", "inputs2"],
       Stmt.copyResult "out" "result"] }

/-- Helper `inferPoolAvgNet(inputs, out, kind)`. -/
def inferPoolAvgNet (inputs out : Tensor) (kind : BackendKind) : Program :=
  { params := [("inputs", inputs), ("out", out)],
    body :=
      [Stmt.newEngine kind,
       Stmt.createFunction "F" "main",
       Stmt.createVariable "var" (VarFrom "inputs" inputs),
       Stmt.createNode "pool" "F" NodeKind.PoolAvg "pool"
         [Arg.value "var", Arg.size 3, Arg.size 3, Arg.size 1],
       Stmt.createNode "result" "F" NodeKind.Save "ret" [Arg.value "pool"],
       Stmt.compile CompilationMode.Infer "F",
       Stmt.run ["var"] ["inputs"],
       Stmt.copyResult "out" "result"] }

/-- Helper `trainPoolAvgNet(inputs, weights, bias, selected, shape1, shape2,
out, kind)`. -/
def trainPoolAvgNet (inputs weights bias selected : Tensor)
    (shape1 shape2 : List Nat) (out : Tensor) (kind : BackendKind) : Program :=
  { params := [("inputs", inputs), ("weights", weights), ("bias", bias),
      ("selected", selected), ("out", out)],
    body :=
      [Stmt.newEngine kind,
       Stmt.setLearningRate (1 / 100),
       Stmt.setMomentum (4 / 10),
       Stmt.setL2Decay (1 / 100),
       Stmt.createFunction "F" "main",
       Stmt.createVariable "var1" (VarFrom "inputs" inputs),
       Stmt.createVariable "var2" (VarFrom "selected" selected),
       Stmt.createNode "fc" "F" NodeKind.FullyConnected "fc"
         [Arg.value "var1", Arg.dimAt bias.dims 0],
       Stmt.copyFrom "fc" Member.Weights "weights",
       Stmt.copyFrom "fc" Member.Bias "bias",
       Stmt.createNode "reshape1" "F" NodeKind.Reshape "reshape1"
         [Arg.value "fc", Arg.shape shape1],
       Stmt.createNode "pool" "F" NodeKind.PoolAvg "pool"
         [Arg.value "reshape1", Arg.size 2, Arg.size 2, Arg.size 0],
       Stmt.createNode "reshape2" "F" NodeKind.Reshape "reshape2"
         [Arg.value "pool", Arg.shape shape2],
       Stmt.createNode "softmax" "F" NodeKind.SoftMax "softmax"
         [Arg.value "reshape2", Arg.value "var2"],
       Stmt.createNode "result" "F" NodeKind.Save "ret" [Arg.value "softmax"],
       Stmt.differentiate "TF" "F",
       Stmt.compile CompilationMode.Train "TF",
       Stmt.runBatch 10 ["var1", "var2"] ["inputs", "selected"],
       Stmt.compile CompilationMode.Infer "F",
       Stmt.run ["var1", "var2"] ["inputs", "selected"],
       Stmt.copyResult "out" "result"] }

/-- Helper `inferPoolMaxNet(inputs, out, kind)`. -/
def inferPoolMaxNet (inputs out : Tensor) (kind : BackendKind) : Program :=
  { params := [("inputs", inputs), ("out", out)],
    body :=
      [Stmt.newEngine kind,
       Stmt.createFunction "F" "main",
       Stmt.createVariable "var" (VarFrom "inputs" inputs),
       Stmt.createNode "pool" "F" NodeKind.PoolMax "pool"
         [Arg.value "var", Arg.size 4, Arg.size 2, Arg.size 3],
       Stmt.createNode "result" "F" NodeKind.Save "ret" [Arg.value "pool"],
       Stmt.compile CompilationMode.Infer "F",
       Stmt.run ["var"] ["inputs"],
       Stmt.copyResult "out" "result"] }

/-- Helper `trainPoolMaxNet(inputs, weights, bias, selected, shape1, shape2,
out, kind)`. -/
def trainPoolMaxNet (inputs weights bias selected : Tensor)
    (shape1 shape2 : List Nat) (out : Tensor) (kind : BackendKind) : Program :=
  { params := [("inputs", inputs), ("weights", weights), ("bias", bias),
      ("selected", selected), ("out", out)],
    body :=
      [Stmt.newEngine kind,
       Stmt.setLearningRate (3 / 100),
       Stmt.setMomentum (3 / 10),
       Stmt.setL2Decay (3 / 1000),
       Stmt.createFunction "F" "main",
       Stmt.createVariable "var1" (VarFrom "inputs" inputs),
       Stmt.createVariable "var2" (VarFrom "selected" selected),
       Stmt.createNode "fc" "F" NodeKind.FullyConnected "fc"
         [Arg.value "var1", Arg.dimAt bias.dims 0],
       Stmt.copyFrom "fc" Member.Weights "weights",
       Stmt.copyFrom "fc" Member.Bias "bias",
       Stmt.createNode "reshape1" "F" NodeKind.Reshape "reshape1"
         [Arg.value "fc", Arg.shape shape1],
       Stmt.createNode "pool" "F" NodeKind.PoolMax "pool"
         [Arg.value "reshape1", Arg.size 5, Arg.size 3, Arg.size 4],
       Stmt.createNode "reshape2" "F" NodeKind.Reshape "reshape2"
         [Arg.value "pool", Arg.shape shape2],
       Stmt.createNode "softmax" "F" NodeKind.SoftMax "softmax"
         [Arg.value "reshape2", Arg.value "var2"],
       Stmt.createNode "result" "F" NodeKind.Save "ret" [Arg.value "softmax"],
       Stmt.differentiate "TF" "F",
       Stmt.compile CompilationMode.Train "TF",
       Stmt.runBatch 7 ["var1", "var2"] ["inputs", "selected"],
       Stmt.compile CompilationMode.Infer "F",
       Stmt.runBatch 1 ["var1", "var2"] ["inputs", "selected"],
       Stmt.copyResult "out" "result"] }

/-- Helper `inferQuantizeNet(inputs, scale, offset, out, kind)`. -/
def inferQuantizeNet (inputs : Tensor) (scale : ℚ) (offset : Int) (out : Tensor)
    (kind : BackendKind) : Program :=
  let QT1 : TypeRef := TypeRef.uniqueTypeQ ElemKind.Int8QTy inputs.dims scale offset
  let QT2 : TypeRef :=
    TypeRef.uniqueTypeQ ElemKind.Int8QTy inputs.dims (scale * (1125 / 1000)) (offset + 1)
  { params := [("inputs", inputs), ("out", out)],
    body :=
      [Stmt.newEngine kind,
       Stmt.createFunction "F" "main",
       Stmt.createVariable "var" (VarFrom "inputs" inputs),
       Stmt.createNode "quantize" "F" NodeKind.Quantize "quantize"
         [Arg.value "var", Arg.type QT1],
       Stmt.createNode "rescale" "F" NodeKind.RescaleQuantized "rescale"
         [Arg.value "quantize", Arg.type QT2],
       Stmt.createNode "dequantize" "F" NodeKind.Dequantize "dequantize"
         [Arg.value "rescale"],
       Stmt.createNode "result" "F" NodeKind.Save "ret" [Arg.value "dequantize"],
       Stmt.compile CompilationMode.Infer "F",
       Stmt.run ["var"] ["inputs"],
       Stmt.copyResult "out" "result"] }

/-- Helper `inferReluNet(inputs, out, kind)`. -/
def inferReluNet (inputs out : Tensor) (kind : BackendKind) : Program :=
  { params := [("inputs", inputs), ("out", out)],
    body :=
      [Stmt.newEngine kind,
       Stmt.createFunction "F" "main",
       Stmt.createVariable "var" (VarFrom "inputs" inputs),
       Stmt.createNode "relu" "F" NodeKind.RELU "relu" [Arg.value "var"],
       Stmt.createNode "result" "F" NodeKind.Save "ret" [Arg.value "relu"],
       Stmt.compile CompilationMode.Infer "F",
       Stmt.run ["var"] ["inputs"],
       Stmt.copyResult "out" "result"] }

/-- Helper `inferReshapeNet(inputs, shape, out, kind)`. -/
def inferReshapeNet (inputs : Tensor) (shape : List Nat) (out : Tensor)
    (kind : BackendKind) : Program :=
  { params := [("inputs", inputs), ("out", out)],
    body :=
      [Stmt.newEngine kind,
       Stmt.createFunction "F" "main",
       Stmt.createVariable "var" (VarFrom "inputs" inputs),
       Stmt.createNode "reshape" "F" NodeKind.Reshape "reshape"
         [Arg.value "var", Arg.shape shape],
       Stmt.createNode "result" "F" NodeKind.Save "ret" [Arg.value "reshape"],
       Stmt.compile CompilationMode.Infer "F",
       Stmt.run ["var"] ["inputs"],
       Stmt.copyResult "out" "result"] }

/-- Helper `inferSelectNet(cond, inputs1, inputs2, out, kind)`. -/
def inferSelectNet (cond inputs1 inputs2 out : Tensor) (kind : BackendKind) : Program :=
  { params := [("cond", cond), ("inputs1", inputs1), ("inputs2", inputs2), ("out", out)],
    body :=
      [Stmt.newEngine kind,
       Stmt.createFunction "F" "main",
       Stmt.createVariable "var1" (VarFrom "cond" cond),
       Stmt.createVariable "var2" (VarFrom "inputs1" inputs1),
       Stmt.createVariable "var3" (VarFrom "inputs2" inputs2),
       Stmt.createNode "select" "F" NodeKind.Select "cond"
         [Arg.value "var1", Arg.value "var2", Arg.value "var3"],
       Stmt.createNode "result" "F" NodeKind.Save "ret" [Arg.value "select"],
       Stmt.compile CompilationMode.Infer "F",
       Stmt.run ["var1", "var2", "var3"] ["cond", "inputs1", "inputs2"],
       Stmt.copyResult "out" "result"] }

/-- Helper `inferSigmoidNet(inputs, out, kind)`. -/
def inferSigmoidNet (inputs out : Tensor) (kind : BackendKind) : Program :=
  { params := [("inputs", inputs), ("out", out)],
    body :=
      [Stmt.newEngine kind,
       Stmt.createFunction "F" "main",
       Stmt.createVariable "var" (VarFrom "inputs" inputs),
       Stmt.createNode "sigmoid" "F" NodeKind.Sigmoid "sigmoid" [Arg.value "var"],
       Stmt.createNode "result" "F" NodeKind.Save "ret" [Arg.value "sigmoid"],
       Stmt.compile CompilationMode.Infer "F",
       Stmt.run ["var"] ["inputs"],
       Stmt.copyResult "out" "result"] }

/-- Helper `inferSoftMaxNet(inputs, selected, out, kind)`. -/
def inferSoftMaxNet (inputs selected out : Tensor) (kind : BackendKind) : Program :=
  { params := [("inputs", inputs), ("selected", selected), ("out", out)],
    body :=
      [Stmt.newEngine kind,
       Stmt.createFunction "F" "main",
       Stmt.createVariable "var1" (VarFrom "inputs" inputs),
       Stmt.createVariable "var2" (VarFrom "selected" selected),
       Stmt.createNode "softmax" "F" NodeKind.SoftMax "softmax"
         [Arg.value "var1", Arg.value "var2"],
       Stmt.createNode "result" "F" NodeKind.Save "ret" [Arg.value "softmax"],
       Stmt.compile CompilationMode.Infer "F",
       Stmt.run ["var1", "var2"] ["inputs", "selected"],
       Stmt.copyResult "out" "result"] }

/-- Helper `trainSoftMaxNet(inputs, weights, bias, selected, out, kind)`. -/
def trainSoftMaxNet (inputs weights bias selected out : Tensor) (kind : BackendKind) :
    Program :=
  { params := [("inputs", inputs), ("weights", weights), ("bias", bias),
      ("selected", selected), ("out", out)],
    body :=
      [Stmt.newEngine kind,
       Stmt.setLearningRate (3 / 1000),
       Stmt.setMomentum (7 / 10),
       Stmt.setL2Decay (1 / 1000),
       Stmt.createFunction "F" "main",
       Stmt.createVariable "var1" (VarFrom "inputs" inputs),
       Stmt.createVariable "var2" (VarFrom "selected" selected),
       Stmt.createNode "fc" "F" NodeKind.FullyConnected "fc"
         [Arg.value "var1", Arg.dimAt bias.dims 0],
       Stmt.copyFrom "fc" Member.Weights "weights",
       Stmt.copyFrom "fc" Member.Bias "bias",
       Stmt.createNode "softmax" "F" NodeKind.SoftMax "softmax"
         [Arg.value "fc", Arg.value "var2"],
       Stmt.createNode "result" "F" NodeKind.Save "ret" [Arg.value "softmax"],
       Stmt.differentiate "TF" "F",
       Stmt.compile CompilationMode.Train "TF",
       Stmt.runBatch 30 ["var1", "var2"] ["inputs", "selected"],
       Stmt.compile CompilationMode.Infer "F",
       Stmt.run ["var1", "var2"] ["inputs", "selected"],
       Stmt.copyResult "out" "result"] }

/-- Helper `inferTanhNet(inputs, out, kind)`. -/
def inferTanhNet (inputs out : Tensor) (kind : BackendKind) : Program :=
  { params := [("inputs", inputs), ("out", out)],
    body :=
      [Stmt.newEngine kind,
       Stmt.createFunction "F" "main",
       Stmt.createVariable "var" (VarFrom "inputs" inputs),
       Stmt.createNode "tanh" "F" NodeKind.Tanh "tanh" [Arg.value "var"],
       Stmt.createNode "result" "F" NodeKind.Save "ret" [Arg.value "tanh"],
       Stmt.compile CompilationMode.Infer "F",
       Stmt.run ["var"] ["inputs"],
       Stmt.copyResult "out" "result"] }

/-- Helper `inferBasicConvNet(inputs, out, kind, convDepth)`. -/
def inferBasicConvNet (inputs out : Tensor) (kind : BackendKind) (convDepth : Nat) :
    Program :=
  { params := [("inputs", inputs), ("out", out)],
    body :=
      [Stmt.newEngine kind,
       Stmt.createFunction "F" "main",
       Stmt.createVariable "var" (VarFrom "inputs" inputs),
       Stmt.createNode "tr" "F" NodeKind.Transpose "tr"
         [Arg.value "var", Arg.shape [0, 2, 3, 1]],
       Stmt.createNode "conv" "F" NodeKind.Conv "conv"
         [Arg.value "tr", Arg.size convDepth, Arg.size 5, Arg.size 2, Arg.size 1,
          Arg.size 1],
       Stmt.clear "conv" Member.Filter 2,
       Stmt.clear "conv" Member.Bias 2,
       Stmt.createNode "pool" "F" NodeKind.PoolMax "pool"
         [Arg.value "conv", Arg.size 2, Arg.size 2, Arg.size 0],
       Stmt.createNode "result" "F" NodeKind.Save "ret" [Arg.value "pool"],
       Stmt.compile CompilationMode.Infer "F",
       Stmt.run ["var"] ["inputs"],
       Stmt.copyResult "out" "result"] }

/-- Helper `inferBasicFCNet(inputs, out, kind)`. The second RELU `rl1` reads
`fc`, and `rl1` is what is saved. -/
def inferBasicFCNet (inputs out : Tensor) (kind : BackendKind) : Program :=
  { params := [("inputs", inputs), ("out", out)],
    body :=
      [Stmt.newEngine kind,
       Stmt.createFunction "F" "main",
       Stmt.createVariable "var" (VarFrom "inputs" inputs),
       Stmt.createNode "tr" "F" NodeKind.Transpose "tr"
         [Arg.value "var", Arg.shape [0, 2, 3, 1]],
       Stmt.createNode "fc" "F" NodeKind.FullyConnected "fc" [Arg.value "tr", Arg.size 16],
       Stmt.createNode "rl0" "F" NodeKind.RELU "relu" [Arg.value "fc"],
       Stmt.createNode "fc2" "F" NodeKind.FullyConnected "fc2" [Arg.value "rl0", Arg.size 8],
       Stmt.createNode "rl1" "F" NodeKind.RELU "relu" [Arg.value "fc"],
       Stmt.clear "fc" Member.Weights (8 / 10),
       Stmt.clear "fc2" Member.Weights (15 / 10),
       Stmt.createNode "result" "F" NodeKind.Save "ret" [Arg.value "rl1"],
       Stmt.compile CompilationMode.Infer "F",
       Stmt.run ["var"] ["inputs"],
       Stmt.copyResult "out" "result"] }

/-- Helper `inferMixedNet(inputs, out, kind)`. The variable `selected` is
created from an element kind and dimensions, with no visibility argument. -/
def inferMixedNet (inputs out : Tensor) (kind : BackendKind) : Program :=
  { params := [("inputs", inputs), ("out", out)],
    body :=
      [Stmt.newEngine kind,
       Stmt.createFunction "F" "main",
       Stmt.createVariable "var" (VarFrom "inputs" inputs),
       Stmt.createVariable "selected"
         (Module.createVariableOfKind ElemKind.IndexTy [2, 1] "selected"),
       Stmt.createNode "tr" "F" NodeKind.Transpose "tr"
         [Arg.value "var", Arg.shape [0, 2, 3, 1]],
       Stmt.createNode "fc" "F" NodeKind.FullyConnected "fc" [Arg.value "tr", Arg.size 16],
       Stmt.createNode "th0" "F" NodeKind.Tanh "tanh" [Arg.value "fc"],
       Stmt.createNode "sg0" "F" NodeKind.Sigmoid "sig" [Arg.value "fc"],
       Stmt.createNode "A1" "F" NodeKind.Add "add" [Arg.value "th0", Arg.value "sg0"],
       Stmt.createNode "fc2" "F" NodeKind.FullyConnected "fc2" [Arg.value "A1", Arg.size 16],
       Stmt.createNode "R" "F" NodeKind.Regression "reg" [Arg.value "fc2", Arg.value "fc2"],
       Stmt.createNode "SM" "F" NodeKind.SoftMax "SM" [Arg.value "R", Arg.value "selected"],
       Stmt.createNode "result" "F" NodeKind.Save "ret" [Arg.value "SM"],
       Stmt.clear "fc" Member.Weights (4 / 10),
       Stmt.clear "fc2" Member.Weights (35 / 10),
       Stmt.compile CompilationMode.Infer "F",
       Stmt.run ["var"] ["inputs"],
       Stmt.copyResult "out" "result"] }

/-- Helper `inferComplexNet1(inputs1, inputs2, inputs3, inputs4, out, kind)`. -/
def inferComplexNet1 (inputs1 inputs2 inputs3 inputs4 out : Tensor) (kind : BackendKind) :
    Program :=
  { params := [("inputs1", inputs1), ("inputs2", inputs2), ("inputs3", inputs3),
      ("inputs4", inputs4), ("out", out)],
    body :=
      [Stmt.newEngine kind,
       Stmt.createFunction "F" "main",
       Stmt.createVariable "var1" (VarFrom "inputs1" inputs1),
       Stmt.createVariable "var2" (VarFrom "inputs2" inputs2),
       Stmt.createVariable "var3" (VarFrom "inputs3" inputs3),
       Stmt.createVariable "var4" (VarFrom "inputs4" inputs4),
       Stmt.createNode "conv1" "F" NodeKind.Conv "conv1"
         [Arg.value "var1", Arg.size 6, Arg.size 4, Arg.size 1, Arg.size 2, Arg.size 1],
       Stmt.clear "conv1" Member.Filter (5 / 10),
       Stmt.clear "conv1" Member.Bias (7 / 10),
       Stmt.createNode "sigmoid1" "F" NodeKind.Sigmoid "sigmoid1" [Arg.value "conv1"],
       Stmt.createNode "fc1" "F" NodeKind.FullyConnected "fc1"
         [Arg.value "var2", Arg.size 2352],
       Stmt.clear "fc1" Member.Weights (6 / 10),
       Stmt.createNode "reshape1" "F" NodeKind.Reshape "reshape1"
         [Arg.value "fc1", Arg.shape [8, 14, 28, 6]],
       Stmt.createNode "relu1" "F" NodeKind.RELU "relu1" [Arg.value "reshape1"],
       Stmt.createNode "pool1" "F" NodeKind.PoolMax "pool1"
         [Arg.value "relu1", Arg.size 2, Arg.size 2, Arg.size 1],
       Stmt.createNode "add" "F" NodeKind.Add "add" [Arg.value "sigmoid1", Arg.value "pool1"],
       Stmt.createNode "tanh" "F" NodeKind.Tanh "tanh" [Arg.value "add"],
       Stmt.createNode "fc2" "F" NodeKind.FullyConnected "fc2"
         [Arg.value "var3", Arg.size 720],
       Stmt.clear "fc2" Member.Weights (11 / 10),
       Stmt.createNode "reshape2" "F" NodeKind.Reshape "reshape2"
         [Arg.value "fc2", Arg.shape [8, 8, 15, 6]],
       Stmt.createNode "mul" "F" NodeKind.Mul "mul" [Arg.value "tanh", Arg.value "reshape2"],
       Stmt.createNode "sigmoid2" "F" NodeKind.Sigmoid "sigmoid2" [Arg.value "mul"],
       Stmt.createNode "conv2" "F" NodeKind.Conv "conv2"
         [Arg.value "sigmoid2", Arg.size 7, Arg.size 3, Arg.size 2, Arg.size 1, Arg.size 1],
       Stmt.clear "conv2" Member.Filter (3 / 10),
       Stmt.clear "conv2" Member.Bias (13 / 10),
       Stmt.createNode "reshape3" "F" NodeKind.Reshape "reshape3"
         [Arg.value "conv2", Arg.shape [8, 8, 7, 4]],
       Stmt.createNode "sub" "F" NodeKind.Sub "sub" [Arg.value "reshape3", Arg.value "var4"],
       Stmt.createNode "relu2" "F" NodeKind.RELU "relu2" [Arg.value "sub"],
       Stmt.createNode "pool2" "F" NodeKind.PoolAvg "pool2"
         [Arg.value "relu2", Arg.size 3, Arg.size 2, Arg.size 1],
       Stmt.createNode "sigmoid3" "F" NodeKind.Sigmoid "sigmoid3" [Arg.value "pool2"],
       Stmt.createNode "result" "F" NodeKind.Save "ret" [Arg.value "sigmoid3"],
       Stmt.compile CompilationMode.Infer "F",
       Stmt.run ["var1", "var2", "var3", "var4"] ["inputs1", "inputs2", "inputs3", "inputs4"],
       Stmt.copyResult "out" "result"] }

/-- A call of one of the helpers of `BackendTestUtils.cpp` with its arguments. -/
inductive HelperCall where
  | inferBatchedAddNet (batch slice out : Tensor) (kind : BackendKind)
  | inferBatchedReduceAddNet (inputs out : Tensor) (kind : BackendKind)
  | inferConvNet (inputs filter bias out : Tensor) (kind : BackendKind)
  | trainConvNet (inputs kernel1 bias1 kernel2 bias2 selected : Tensor)
      (shape1 shape2 : List Nat) (out : Tensor) (kind : BackendKind)
  | inferGatherNet (data indices dest : Tensor) (kind : BackendKind)
  | inferLocalResponseNormalizationNet (inputs out : Tensor) (kind : BackendKind)
  | trainLocalResponseNormalizationNet (inputs weights bias selected : Tensor)
      (shape1 shape2 : List Nat) (out : Tensor) (kind : BackendKind)
  | inferMatMulNet (lhs rhs out : Tensor) (kind : BackendKind)
  | inferMaxNet (inputs1 inputs2 out : Tensor) (kind : BackendKind)
  | inferMinNet (inputs1 inputs2 out : Tensor) (kind : BackendKind)
  | inferPoolAvgNet (inputs out : Tensor) (kind : BackendKind)
  | trainPoolAvgNet (inputs weights bias selected : Tensor)
      (shape1 shape2 : List Nat) (out : Tensor) (kind : BackendKind)
  | inferPoolMaxNet (inputs out : Tensor) (kind : BackendKind)
  | trainPoolMaxNet (inputs weights bias selected : Tensor)
      (shape1 shape2 : List Nat) (out : Tensor) (kind : BackendKind)
  | inferQuantizeNet (inputs : Tensor) (scale : ℚ) (offset : Int) (out : Tensor)
      (kind : BackendKind)
  | inferReluNet (inputs out : Tensor) (kind : BackendKind)
  | inferReshapeNet (inputs : Tensor) (shape : List Nat) (out : Tensor) (kind : BackendKind)
  | inferSelectNet (cond inputs1 inputs2 out : Tensor) (kind : BackendKind)
  | inferSigmoidNet (inputs out : Tensor) (kind : BackendKind)
  | inferSoftMaxNet (inputs selected out : Tensor) (kind : BackendKind)
  | trainSoftMaxNet (inputs weights bias selected out : Tensor) (kind : BackendKind)
  | inferTanhNet (inputs out : Tensor) (kind : BackendKind)
  | inferBasicConvNet (inputs out : Tensor) (kind : BackendKind) (convDepth : Nat)
  | inferBasicFCNet (inputs out : Tensor) (kind : BackendKind)
  | inferMixedNet (inputs out : Tensor) (kind : BackendKind)
  | inferComplexNet1 (inputs1 inputs2 inputs3 inputs4 out : Tensor) (kind : BackendKind)

/-- The program a helper call runs. -/
def HelperCall.program : HelperCall → Program
  | .inferBatchedAddNet batch slice out kind => glow.inferBatchedAddNet batch slice out kind
  | .inferBatchedReduceAddNet inputs out kind => glow.inferBatchedReduceAddNet inputs out kind
  | .inferConvNet inputs filter bias out kind => glow.inferConvNet inputs filter bias out kind
  | .trainConvNet inputs kernel1 bias1 kernel2 bias2 selected shape1 shape2 out kind =>
    glow.trainConvNet inputs kernel1 bias1 kernel2 bias2 selected shape1 shape2 out kind
  | .inferGatherNet data indices dest kind => glow.inferGatherNet data indices dest kind
  | .inferLocalResponseNormalizationNet inputs out kind =>
    glow.inferLocalResponseNormalizationNet inputs out kind
  | .trainLocalResponseNormalizationNet inputs weights bias selected shape1 shape2 out kind =>
    glow.trainLocalResponseNormalizationNet inputs weights bias selected shape1 shape2 out kind
  | .inferMatMulNet lhs rhs out kind => glow.inferMatMulNet lhs rhs out kind
  | .inferMaxNet inputs1 inputs2 out kind => glow.inferMaxNet inputs1 inputs2 out kind
  | .inferMinNet inputs1 inputs2 out kind => glow.inferMinNet inputs1 inputs2 out kind
  | .inferPoolAvgNet inputs out kind => glow.inferPoolAvgNet inputs out kind
  | .trainPoolAvgNet inputs weights bias selected shape1 shape2 out kind =>
    glow.trainPoolAvgNet inputs weights bias selected shape1 shape2 out kind
  | .inferPoolMaxNet inputs out kind => glow.inferPoolMaxNet inputs out kind
  | .trainPoolMaxNet inputs weights bias selected shape1 shape2 out kind =>
    glow.trainPoolMaxNet inputs weights bias selected shape1 shape2 out kind
  | .inferQuantizeNet inputs scale offset out kind =>
    glow.inferQuantizeNet inputs scale offset out kind
  | .inferReluNet inputs out kind => glow.inferReluNet inputs out kind
  | .inferReshapeNet inputs shape out kind => glow.inferReshapeNet inputs shape out kind
  | .inferSelectNet cond inputs1 inputs2 out kind =>
    glow.inferSelectNet cond inputs1 inputs2 out kind
  | .inferSigmoidNet inputs out kind => glow.inferSigmoidNet inputs out kind
  | .inferSoftMaxNet inputs selected out kind => glow.inferSoftMaxNet inputs selected out kind
  | .trainSoftMaxNet inputs weights bias selected out kind =>
    glow.trainSoftMaxNet inputs weights bias selected out kind
  | .inferTanhNet inputs out kind => glow.inferTanhNet inputs out kind
  | .inferBasicConvNet inputs out kind convDepth =>
    glow.inferBasicConvNet inputs out kind convDepth
  | .inferBasicFCNet inputs out kind => glow.inferBasicFCNet inputs out kind
  | .inferMixedNet inputs out kind => glow.inferMixedNet inputs out kind
  | .inferComplexNet1 inputs1 inputs2 inputs3 inputs4 out kind =>
    glow.inferComplexNet1 inputs1 inputs2 inputs3 inputs4 out kind

/-! ## Reading a program -/

/-- The variable locals an engine call binds: the first braced list of
`EE.run` and `EE.runBatch`. -/
def Stmt.boundVars : Stmt → List String
  | Stmt.run vars _ => vars
  | Stmt.runBatch _ vars _ => vars
  | _ => []

/-- The tensor parameters an engine call binds: the second braced list of
`EE.run` and `EE.runBatch`. -/
def Stmt.boundTensors : Stmt → List String
  | Stmt.run _ tensors => tensors
  | Stmt.runBatch _ _ tensors => tensors
  | _ => []

/-- Whether the statement executes the compiled function (`EE.run` or
`EE.runBatch`). -/
def Stmt.isExec : Stmt → Bool
  | Stmt.run _ _ => true
  | Stmt.runBatch _ _ _ => true
  | _ => false

/-- Whether the statement sets up the engine or builds the graph: everything
but `differentiate`, `compile`, `run`, `runBatch` and the copy of the result. -/
def Stmt.isBuild : Stmt → Bool
  | Stmt.newEngine _ => true
  | Stmt.setLearningRate _ => true
  | Stmt.setMomentum _ => true
  | Stmt.setL2Decay _ => true
  | Stmt.createFunction _ _ => true
  | Stmt.createVariable _ _ => true
  | Stmt.createNode _ _ _ _ _ => true
  | Stmt.copyFrom _ _ _ => true
  | Stmt.clear _ _ _ => true
  | _ => false

/-- Whether a node creation is on the function `F`; true of every statement
that creates no node. -/
def Stmt.nodeOn (F : String) : Stmt → Bool
  | Stmt.createNode _ G _ _ _ => G == F
  | _ => true

/-- The variable a local was declared with: the first `createVariable` of that
local. -/
def findVariable : List Stmt → String → Option Variable
  | [], _ => none
  | Stmt.createVariable y v :: rest, x => if y = x then some v else findVariable rest x
  | _ :: rest, x => findVariable rest x

/-- The function on which the save node held by local `x` was created. -/
def saveFunction : List Stmt → String → Option String
  | [], _ => none
  | Stmt.createNode y F NodeKind.Save _ _ :: rest, x =>
    if y = x then some F else saveFunction rest x
  | _ :: rest, x => saveFunction rest x

/-- The most recent compile after one more statement: `lc` is the most recent
`EE.compile` before the statement, as (mode, function). -/
def nextCompile (lc : Option (CompilationMode × String)) : Stmt → Option (CompilationMode × String)
  | Stmt.compile mode F => some (mode, F)
  | _ => lc

/-- The most recent `EE.compile` of a sequence of statements, as (mode,
function); `none` when the sequence has no compile. -/
def lastCompile (l : List Stmt) : Option (CompilationMode × String) :=
  l.foldl nextCompile none

/-- The output type `OT` of the three helpers that branch on the type of their
first tensor: the four-argument `uniqueType` with the scale and offset of `out`
when the first tensor is of a quantized type, the two-argument one otherwise. -/
def outputType (first out : Tensor) : TypeRef :=
  if first.getType.isQuantizedType then
    TypeRef.uniqueTypeQ out.getElementType out.dims out.getType.getScale out.getType.getOffset
  else
    TypeRef.uniqueType out.getElementType out.dims

/-- The variables `VarFrom` gives for the tensor parameters of a program. -/
def Program.varFromParams (p : Program) : List Variable :=
  p.params.map fun a => VarFrom a.1 a.2

/-- Every variable in the binding list of an `EE.run` or `EE.runBatch` of the
program was declared, carries `VisibilityKind::Public`, and is `VarFrom` of a
tensor parameter. -/
def Program.BindsOnlyPublic (p : Program) : Prop :=
  ∀ s ∈ p.body, ∀ x ∈ s.boundVars,
    ∃ v, findVariable p.body x = some v ∧
      v.visibility = some VisibilityKind.Public ∧ v ∈ p.varFromParams

/-- The local `x` is in no binding list of the program. -/
def Program.NeverBound (p : Program) (x : String) : Prop :=
  ∀ s ∈ p.body, x ∉ s.boundVars

/-- The variable local `x` is bound to the tensor parameter `T` as `VarFrom`
declares it: `T` is a parameter, `x` was declared as `VarFrom(T)`, and so the
type of `x` is the type of the tensor. -/
def Program.VarMatchesTensor (p : Program) (x T : String) : Prop :=
  ∃ tensor, (T, tensor) ∈ p.params ∧
    findVariable p.body x = some (VarFrom T tensor) ∧
    (findVariable p.body x).map Variable.type = some (TypeRef.ofType tensor.getType)

/-- In every engine call of the program the variable list and the tensor list
have the same length and match position by position. -/
def Program.BindingsMatch (p : Program) : Prop :=
  ∀ s ∈ p.body,
    s.boundVars.length = s.boundTensors.length ∧
    List.Forall₂ (fun x T => p.VarMatchesTensor x T) s.boundVars s.boundTensors

/-- The check of one statement, given the most recent compile `lc` before it
and whether an execution came before it (`ex`): an execution needs an earlier
compile; the copy of the result needs an earlier execution, and the last
compile before it must be `compile(Infer, F)` for the function `F` on which the
save node read was created. -/
def stmtInOrder (body : List Stmt) (lc : Option (CompilationMode × String)) (ex : Bool) :
    Stmt → Bool
  | Stmt.run _ _ => lc.isSome
  | Stmt.runBatch _ _ _ => lc.isSome
  | Stmt.copyResult _ result =>
    ex &&
      (match saveFunction body result with
       | some F => lc == some (CompilationMode.Infer, F)
       | none => false)
  | _ => true

/-- Every statement of the trace passes `stmtInOrder` against the statements
before it. -/
def EngineOrder (body : List Stmt) : Prop :=
  ∀ (i : Nat) (s : Stmt), body.get? i = some s →
    stmtInOrder body (lastCompile (body.take i)) ((body.take i).any Stmt.isExec) s = true

/-- The same check run left to right, carrying the most recent compile and
whether an execution was seen. -/
def engineOrderFrom (body : List Stmt) :
    Option (CompilationMode × String) → Bool → List Stmt → Bool
  | _, _, [] => true
  | lc, ex, s :: rest =>
    stmtInOrder body lc ex s && engineOrderFrom body (nextCompile lc s) (ex || s.isExec) rest

/-- Whether the statement is the copy of the result out of a save node. -/
def Stmt.isCopyResult : Stmt → Bool
  | Stmt.copyResult _ _ => true
  | _ => false

/-- The program executes the engine and ends with the copy of the result. -/
def Program.runsAndReads (p : Program) : Bool :=
  p.body.any Stmt.isExec && (p.body.reverse.head?.map Stmt.isCopyResult == some true)

/-- The helpers named `train...`. -/
def HelperCall.isTrain : HelperCall → Bool
  | .trainConvNet .. => true
  | .trainLocalResponseNormalizationNet .. => true
  | .trainPoolAvgNet .. => true
  | .trainPoolMaxNet .. => true
  | .trainSoftMaxNet .. => true
  | _ => false

/-- The statements of a program before its last six. -/
def Program.buildPhase (p : Program) : List Stmt :=
  p.body.take (p.body.length - 6)

/-- The last six statements of a program. -/
def Program.enginePhase (p : Program) : List Stmt :=
  p.body.drop (p.body.length - 6)

/-- The training pipeline: the program is a build phase that creates the
function `F` and puts every node on `F`, followed by exactly
`TF = differentiate(F)`, `compile(Train, TF)`, `runBatch(n, vars, tensors)` with
`n ≥ 1`, `compile(Infer, F)`, one inference execution with the same variables
and tensors (`run`, or `runBatch` with `n = 1`), and the copy of the result of a
save node of `F`. The body of a program is its build phase followed by its
engine phase (`List.take_append_drop`). -/
def Program.TrainingPipeline (p : Program) : Prop :=
  ∃ (F TF name : String) (n : Nat) (vars tensors : List String) (infer : Stmt)
      (dst result : String),
    p.enginePhase =
      [Stmt.differentiate TF F,
       Stmt.compile CompilationMode.Train TF,
       Stmt.runBatch n vars tensors,
       Stmt.compile CompilationMode.Infer F,
       infer,
       Stmt.copyResult dst result] ∧
    p.buildPhase.all Stmt.isBuild = true ∧
    (p.buildPhase.any fun s => s == Stmt.createFunction F name) = true ∧
    p.buildPhase.all (Stmt.nodeOn F) = true ∧
    TF ≠ F ∧
    1 ≤ n ∧
    (infer = Stmt.run vars tensors ∨ infer = Stmt.runBatch 1 vars tensors) ∧
    saveFunction p.buildPhase result = some F

/-! ## Training configuration and the update step -/

/-- Modelled from the spec: the training configuration `EE.getConfig()`. Its
declaration comes with the execution engine; the spec gives it the three
numeric fields the helpers assign. -/
structure TrainingConfig where
  learningRate : ℚ
  momentum : ℚ
  L2Decay : ℚ
deriving DecidableEq

/-- The effect of one statement on the configuration. -/
def Stmt.applyConfig (cfg : TrainingConfig) : Stmt → TrainingConfig
  | Stmt.setLearningRate q => { cfg with learningRate := q }
  | Stmt.setMomentum q => { cfg with momentum := q }
  | Stmt.setL2Decay q => { cfg with L2Decay := q }
  | _ => cfg

/-- The configuration after the statements of a program, from the
configuration `init` the engine starts with. -/
def Program.config (p : Program) (init : TrainingConfig) : TrainingConfig :=
  p.body.foldl Stmt.applyConfig init

/-- Modelled from the spec: the weight-update instruction that the
differentiation pass appends (the pass is called as `glow::differentiate`, and
its definition is outside the sources). Section 4.4 of the spec:
`velocity = momentum*velocity - learningRate*(gradient + L2Decay*weight);
 weight = weight + velocity`. The result is (new velocity, new weight). -/
def sgdUpdate (cfg : TrainingConfig) (weight gradient velocity : ℚ) : ℚ × ℚ :=
  let velocity := cfg.momentum * velocity - cfg.learningRate * (gradient + cfg.L2Decay * weight)
  (velocity, weight + velocity)

/-! ## Instructions over storage locations -/

/-- Modelled from the spec: what an operand of an instruction refers to, a
storage location (by name) or the result of an earlier instruction (by its
position). The instruction classes are generated into `AutoGenInstr.h`, which is
not among the sources. -/
inductive OperandRef where
  | location (name : String)
  | result (index : Nat)
deriving DecidableEq

/-- Modelled from the spec: an operand reference, marked when it is a
write-destination. -/
structure Operand where
  ref : OperandRef
  isDest : Bool
deriving DecidableEq

/-- Modelled from the spec: an instruction, with its operation kind, its
operands, and the location it is the initializer of, if any. -/
structure Instruction where
  kind : String
  operands : List Operand
  initOf : Option String
deriving DecidableEq

/-- Modelled from the spec: the append-only sequence builder of section 4.2,
over the storage locations of the unit. -/
structure IRBuilder where
  locations : List WeightVar
  instrs : List Instruction

/-- Modelled from the spec: whether the builder has a `Constant` location of
that name. -/
def IRBuilder.isConstant (b : IRBuilder) (name : String) : Bool :=
  b.locations.any fun L =>
    L.getName == name && L.getMutability == WeightVar.MutabilityKind.Constant

/-- Modelled from the spec: whether the reference resolves, to a location of
the unit or to the result of an instruction already in the sequence. -/
def IRBuilder.defined (b : IRBuilder) : OperandRef → Bool
  | OperandRef.location name => b.locations.any fun L => L.getName == name
  | OperandRef.result index => index < b.instrs.length

/-- Modelled from the spec: whether the operand is a write-destination on a
`Constant` location that the instruction does not initialize. -/
def IRBuilder.writesConstant (b : IRBuilder) (I : Instruction) (o : Operand) : Bool :=
  match o.ref with
  | OperandRef.location name => o.isDest && b.isConstant name && I.initOf != some name
  | OperandRef.result _ => false

/-- Modelled from the spec: appending an instruction validates that (a) every
operand is already defined, (b) the types fit the operation's signature (the
check `sigOk`, one per operation, is a parameter), (c) no write-destination
operand refers to a `Constant` location, its initializer apart; a violation is
a fatal error. -/
def IRBuilder.append (sigOk : Instruction → Bool) (b : IRBuilder) (I : Instruction) :
    Except String IRBuilder :=
  if I.operands.any (fun o => !b.defined o.ref) then
    Except.error "operand is not defined"
  else if !sigOk I then
    Except.error "operand types do not fit the operation"
  else if I.operands.any (b.writesConstant I) then
    Except.error "write to a Constant location"
  else
    Except.ok { b with instrs := b.instrs ++ [I] }

/-- Modelled from the spec: appending a list of instructions in order,
stopping at the first error. -/
def IRBuilder.appendAll (sigOk : Instruction → Bool) (b : IRBuilder) :
    List Instruction → Except String IRBuilder
  | [] => Except.ok b
  | I :: rest =>
    match b.append sigOk I with
    | Except.ok b1 => b1.appendAll sigOk rest
    | Except.error e => Except.error e

/-- No instruction of the sequence has a write-destination operand on a
`Constant` location of the unit, except the instruction that initializes that
location. -/
def IRBuilder.ConstantsProtected (b : IRBuilder) : Prop :=
  ∀ I ∈ b.instrs, ∀ L ∈ b.locations,
    L.getMutability = WeightVar.MutabilityKind.Constant →
    Operand.mk (OperandRef.location L.getName) true ∈ I.operands →
    I.initOf = some L.getName

/-- A location that starts `Mutable`, as a trained weight does. -/
def trainedWeight : WeightVar :=
  WeightVar.ctor "w" (TypeRef.uniqueType ElemKind.FloatTy [4]) WeightVar.MutabilityKind.Mutable
    VisibilityKind.Private

/-- An instruction that writes the location `w` and is not its initializer. -/
def writeToWeight : Instruction :=
  { kind := "copy",
    operands := [Operand.mk (OperandRef.location "w") true],
    initOf := none }

/-! ## Output types and declared variables -/

/-- The element kind of the type a `TypeRef` refers to. -/
def TypeRef.getElementType : TypeRef → ElemKind
  | TypeRef.ofType t => t.elementType
  | TypeRef.uniqueType elemTy _ => elemTy
  | TypeRef.uniqueTypeQ elemTy _ _ _ => elemTy

/-- The dimensions of the type a `TypeRef` refers to. -/
def TypeRef.dims : TypeRef → List Nat
  | TypeRef.ofType t => t.dims
  | TypeRef.uniqueType _ dims => dims
  | TypeRef.uniqueTypeQ _ dims _ _ => dims

/-- The scale and offset a `TypeRef` was made with: those of the tensor type
for `&T->getType()`, those passed to the four-argument `uniqueType`, and none
for the two-argument `uniqueType`, which is given element kind and dimensions
alone. -/
def TypeRef.scaleOffset : TypeRef → Option (ℚ × Int)
  | TypeRef.ofType t => some (t.scale, t.offset)
  | TypeRef.uniqueType _ _ => none
  | TypeRef.uniqueTypeQ _ _ scale offset => some (scale, offset)

/-- The `TypeRef` an argument passes, when the argument is a type. -/
def Arg.typeOf : Arg → Option TypeRef
  | Arg.type T => some T
  | _ => none

/-- The output type passed to the creation of the node held by local `x`: the
`TypeRef` argument of the first `F->create...` that declares `x`. -/
def nodeType : List Stmt → String → Option TypeRef
  | [], _ => none
  | Stmt.createNode y _ _ _ args :: rest, x =>
    if y = x then args.findSome? Arg.typeOf else nodeType rest x
  | _ :: rest, x => nodeType rest x

/-- The local and the variable a statement declares, when the statement is a
`createVariable`. -/
def Stmt.declares : Stmt → Option (String × Variable)
  | Stmt.createVariable x v => some (x, v)
  | _ => none

/-- The variables a program creates, with the locals that hold them, in
program order. -/
def declaredVariables (body : List Stmt) : List (String × Variable) :=
  body.filterMap Stmt.declares

/-- The output type of the operator node `node` of the program is made from
the tensor `out`: it has the element kind and the dimensions of `out`; it is
the four-argument `uniqueType` with exactly the scale and offset of `out` when
the tensor `first` is of a quantized type, and the two-argument `uniqueType` of
element kind and dimensions otherwise. -/
def Program.OutputTypeFrom (p : Program) (node : String) (first out : Tensor) : Prop :=
  nodeType p.body node =
    some (if first.getType.isQuantizedType then
        TypeRef.uniqueTypeQ out.getElementType out.dims out.getType.getScale
          out.getType.getOffset
      else TypeRef.uniqueType out.getElementType out.dims) ∧
  (nodeType p.body node).map TypeRef.getElementType = some out.getElementType ∧
  (nodeType p.body node).map TypeRef.dims = some out.dims ∧
  (nodeType p.body node).map TypeRef.scaleOffset =
    some (if first.getType.isQuantizedType then
        some (out.getType.getScale, out.getType.getOffset)
      else none)

/-! ## Data flow between the nodes of a helper -/

/-- The node or variable an argument passes, by the identifier of the local,
when the argument is a node value. -/
def Arg.valueOf : Arg → Option String
  | Arg.value x => some x
  | _ => none

/-- The locals that the creation of the node `x` reads, when the statement is
that creation: the node values among the arguments of `F->create...`. -/
def Stmt.inputsOf (x : String) : Stmt → List String
  | Stmt.createNode y _ _ _ args => if y = x then args.filterMap Arg.valueOf else []
  | _ => []

/-- The locals the node held by `x` reads directly, over a whole program. -/
def directInputs : List Stmt → String → List String
  | [], _ => []
  | s :: rest, x => s.inputsOf x ++ directInputs rest x

/-- The value of `x` depends on `y`: `x` reads `y` directly, or reads a node
whose value depends on `y`. With `x` the save node, these are the ancestors of
the save node. -/
inductive DependsOn (body : List Stmt) : String → String → Prop
  | direct {x y : String} : y ∈ directInputs body x → DependsOn body x y
  | step {x y z : String} : y ∈ directInputs body x → DependsOn body y z → DependsOn body x z

/-- The local of an operator node created on the function `F`: every
`F->create...` but `createSave`. -/
def Stmt.operatorOn (F : String) : Stmt → Option String
  | Stmt.createNode x G kind _ _ =>
    if G = F ∧ kind ≠ NodeKind.Save then some x else none
  | _ => none

/-- The operator nodes a program creates on the function `F`, in program
order. -/
def operatorNodes (body : List Stmt) (F : String) : List String :=
  body.filterMap (Stmt.operatorOn F)

/-- The save node a statement reads the result from, when the statement is the
copy of the result. -/
def Stmt.resultOf : Stmt → Option String
  | Stmt.copyResult _ result => some result
  | _ => none

/-- The save node whose variable the program reads as the result. -/
def Program.resultLocal (p : Program) : Option String :=
  p.body.findSome? Stmt.resultOf

/-- No dead operators: the program reads its result from a save node of some
function `F`, and the value saved depends on every operator node created on
`F`. -/
def Program.NoDeadOperators (p : Program) : Prop :=
  ∃ r F, p.resultLocal = some r ∧ saveFunction p.body r = some F ∧
    ∀ x ∈ operatorNodes p.body F, DependsOn p.body r x

/-- One step of the backward pass over a program: when the statement creates a
node that is needed, the node values it reads are needed too. -/
def Stmt.need (needed : List String) : Stmt → List String
  | Stmt.createNode x _ _ _ args =>
    if needed.contains x then args.filterMap Arg.valueOf ++ needed else needed
  | _ => needed

/-- The locals needed for `r`, by one pass over the program from its last
statement to its first. -/
def neededFor (body : List Stmt) (r : String) : List String :=
  body.reverse.foldl Stmt.need [r]

/-- Whether the set `S` of locals contains everything its members read. -/
def closedUnderInputs (body : List Stmt) (S : List String) : Bool :=
  S.all fun x => (directInputs body x).all fun y => S.contains y

/-- The operator nodes on `F` that the backward pass from `r` does not reach. -/
def unreachedOperators (body : List Stmt) (F r : String) : List String :=
  (operatorNodes body F).filter fun x => !(neededFor body r).contains x

/-- Whether the call is one of `inferBasicFCNet`. -/
def HelperCall.isInferBasicFCNet : HelperCall → Bool
  | .inferBasicFCNet .. => true
  | _ => false

/-- A float input of `inferBasicFCNet`. -/
def basicFCInputs : Tensor :=
  Tensor.mk (Ty.mk ElemKind.FloatTy [2, 3, 16, 16] 0 0)

/-- A float output tensor for `inferBasicFCNet`. -/
def basicFCOut : Tensor :=
  Tensor.mk (Ty.mk ElemKind.FloatTy [2, 16] 0 0)

/-! ## Theorems -/

/-- Auxiliary: after any sequence of calls the mutability tag is the argument
of the last `setMutability`, or the tag the object started with. -/
theorem WeightVar.run_getMutability (ops : List WeightVar.Op) (w : WeightVar) :
    (w.run ops).getMutability = (lastSetMutability ops).getD w.getMutability := by
  induction ops generalizing w with
  | nil => rfl
  | cons op rest ih =>
    have h := ih (w.step op)
    simp only [WeightVar.run, List.foldl_cons] at h ⊢
    rw [h]
    simp only [lastSetMutability]
    cases hl : lastSetMutability rest with
    | some m => simp
    | none => cases op <;> rfl

/-- Auxiliary: after any sequence of calls the visibility tag is the argument
of the last `setVisibility`, or the tag the object started with. -/
theorem WeightVar.run_getVisibility (ops : List WeightVar.Op) (w : WeightVar) :
    (w.run ops).getVisibility = (lastSetVisibility ops).getD w.getVisibility := by
  induction ops generalizing w with
  | nil => rfl
  | cons op rest ih =>
    have h := ih (w.step op)
    simp only [WeightVar.run, List.foldl_cons] at h ⊢
    rw [h]
    simp only [lastSetVisibility]
    cases hl : lastSetVisibility rest with
    | some v => simp
    | none => cases op <;> rfl

/-- C1: the WeightVar built by the constructor from (name, type, m, v) reports
mutability m and visibility v, keeps the given name and type, and is classified
as a WeightVar. -/
theorem WeightVar.ctor_spec (name : String) (Ty : TypeRef)
    (m : WeightVar.MutabilityKind) (v : VisibilityKind) :
    (WeightVar.ctor name Ty m v).getMutability = m ∧
    (WeightVar.ctor name Ty m v).getVisibility = v ∧
    (WeightVar.ctor name Ty m v).getName = name ∧
    (WeightVar.ctor name Ty m v).getType = Ty ∧
    WeightVar.classof (WeightVar.ctor name Ty m v).toKinded = true := by
  refine ⟨rfl, rfl, rfl, rfl, ?_⟩
  simp [WeightVar.classof, WeightVar.ctor, Kinded.getKind]

/-- C2: set-then-get for both tag accessors, on every object; the setters are
total, and `setMutability(Constant)` on a Mutable location leaves it
Constant. -/
theorem WeightVar.set_get (w : WeightVar) (m : WeightVar.MutabilityKind)
    (v : VisibilityKind) :
    (w.setMutability m).getMutability = m ∧
    (w.setVisibility v).getVisibility = v ∧
    ((w.setMutability WeightVar.MutabilityKind.Mutable).setMutability
        WeightVar.MutabilityKind.Constant).getMutability
      = WeightVar.MutabilityKind.Constant :=
  ⟨rfl, rfl, rfl⟩

/-- C3: each tag setter changes only its own tag: `setMutability` leaves
visibility, name, type (and kind) as they were, `setVisibility` leaves
mutability, name, type (and kind) as they were. -/
theorem WeightVar.set_frame (w : WeightVar) (m : WeightVar.MutabilityKind)
    (v : VisibilityKind) :
    ((w.setMutability m).getVisibility = w.getVisibility ∧
      (w.setMutability m).getName = w.getName ∧
      (w.setMutability m).getType = w.getType ∧
      (w.setMutability m).toValue = w.toValue) ∧
    ((w.setVisibility v).getMutability = w.getMutability ∧
      (w.setVisibility v).getName = w.getName ∧
      (w.setVisibility v).getType = w.getType ∧
      (w.setVisibility v).toValue = w.toValue) :=
  ⟨⟨rfl, rfl, rfl, rfl⟩, ⟨rfl, rfl, rfl, rfl⟩⟩

/-- C4: over any sequence of member calls on a freshly constructed WeightVar,
the mutability is the constructor's value or the argument of the most recent
`setMutability`, the visibility is the constructor's value or the argument of
the most recent `setVisibility`; each of `getMutability`, `getVisibility`,
`getMutabilityStr`, `dump` and `verify` leaves the object, hence both tags,
unchanged. -/
theorem WeightVar.tags_fixed_unless_set (name : String) (Ty : TypeRef)
    (m : WeightVar.MutabilityKind) (v : VisibilityKind) (ops : List WeightVar.Op) :
    ((WeightVar.ctor name Ty m v).run ops).getMutability
        = (lastSetMutability ops).getD m ∧
    ((WeightVar.ctor name Ty m v).run ops).getVisibility
        = (lastSetVisibility ops).getD v ∧
    (∀ w : WeightVar,
      w.step WeightVar.Op.getMutability = w ∧
      w.step WeightVar.Op.getVisibility = w ∧
      w.step WeightVar.Op.getMutabilityStr = w ∧
      w.step WeightVar.Op.dump = w ∧
      w.step WeightVar.Op.verify = w) := by
  refine ⟨?_, ?_, fun w => ⟨rfl, rfl, rfl, rfl, rfl⟩⟩
  · exact WeightVar.run_getMutability ops _
  · exact WeightVar.run_getVisibility ops _

/-! ### Constant protection -/

/-- Auxiliary: a successful append keeps the locations, adds the instruction at
the end, and found no write-destination on a Constant location in it. -/
theorem IRBuilder.append_ok (sigOk : Instruction → Bool) (b b1 : IRBuilder) (I : Instruction)
    (h : b.append sigOk I = Except.ok b1) :
    b1.locations = b.locations ∧ b1.instrs = b.instrs ++ [I] ∧
      I.operands.any (b.writesConstant I) = false := by
  unfold IRBuilder.append at h
  split at h
  · cases h
  · split at h
    · cases h
    · split at h
      · cases h
      · rename_i hw
        cases h
        exact ⟨rfl, rfl, by simpa using hw⟩

/-- Auxiliary: an instruction with a write-destination on a Constant location
of the unit, which it does not initialize, is flagged by `writesConstant`. -/
theorem IRBuilder.writesConstant_of_mem (b : IRBuilder) (I : Instruction) (L : WeightVar)
    (hL : L ∈ b.locations) (hc : L.getMutability = WeightVar.MutabilityKind.Constant)
    (hi : I.initOf ≠ some L.getName) :
    b.writesConstant I (Operand.mk (OperandRef.location L.getName) true) = true := by
  have hconst : b.isConstant L.getName = true := by
    simp only [IRBuilder.isConstant, List.any_eq_true]
    exact ⟨L, hL, by simp [hc]⟩
  simp [IRBuilder.writesConstant, hconst, hi]

/-- Auxiliary: one accepted append preserves the protection of constants. -/
theorem IRBuilder.append_protected (sigOk : Instruction → Bool) (b b1 : IRBuilder)
    (I : Instruction) (hb : b.ConstantsProtected) (h : b.append sigOk I = Except.ok b1) :
    b1.ConstantsProtected := by
  obtain ⟨hloc, hins, hw⟩ := IRBuilder.append_ok sigOk b b1 I h
  intro J hJ L hL hc ho
  rw [hins, List.mem_append, List.mem_singleton] at hJ
  rw [hloc] at hL
  rcases hJ with hJ | hJ
  · exact hb J hJ L hL hc ho
  · subst hJ
    by_contra hne
    have hflag := IRBuilder.writesConstant_of_mem b J L hL hc hne
    have hall := List.any_eq_false.1 hw _ ho
    exact hall hflag

/-- Auxiliary: a sequence of accepted appends preserves the protection of
constants. -/
theorem IRBuilder.appendAll_protected (sigOk : Instruction → Bool) (is : List Instruction)
    (b b1 : IRBuilder) (hb : b.ConstantsProtected)
    (h : b.appendAll sigOk is = Except.ok b1) : b1.ConstantsProtected := by
  induction is generalizing b with
  | nil =>
    simp only [IRBuilder.appendAll, Except.ok.injEq] at h
    subst h
    exact hb
  | cons I rest ih =>
    simp only [IRBuilder.appendAll] at h
    cases hstep : b.append sigOk I with
    | error e => rw [hstep] at h; cases h
    | ok b2 =>
      rw [hstep] at h
      exact ih b2 (IRBuilder.append_protected sigOk b b2 I hb hstep) h

/-- C5 (counterexample): a location created Mutable is written by an
instruction the builder accepts, then frozen with `setMutability(Constant)`;
it is now a Constant location that is a write-destination of an instruction
other than its initializer, and `verify` on it still returns normally. -/
theorem WeightVar.verify_accepts_written_constant :
    (∃ b1, (IRBuilder.mk [trainedWeight] []).append (fun _ => true) writeToWeight = Except.ok b1 ∧
      b1.instrs = [writeToWeight]) ∧
    (trainedWeight.setMutability WeightVar.MutabilityKind.Constant).getMutability
      = WeightVar.MutabilityKind.Constant ∧
    Operand.mk (OperandRef.location
        (trainedWeight.setMutability WeightVar.MutabilityKind.Constant).getName) true
      ∈ writeToWeight.operands ∧
    writeToWeight.initOf
      ≠ some (trainedWeight.setMutability WeightVar.MutabilityKind.Constant).getName ∧
    (trainedWeight.setMutability WeightVar.MutabilityKind.Constant).verify = Except.ok () ∧
    ¬ ∃ e, (trainedWeight.setMutability WeightVar.MutabilityKind.Constant).verify
      = Except.error e := by
  refine ⟨⟨_, rfl, rfl⟩, rfl, ?_, ?_, rfl, ?_⟩
  · simp [writeToWeight, trainedWeight, WeightVar.setMutability, WeightVar.ctor, Value.getName]
  · simp [writeToWeight]
  · simp [WeightVar.verify]

/-- C5 (amended): for every location L of the unit that is Constant when the
instruction I is appended, if I has a write-destination operand on L and is not
the initializer of L, appending I fails; in every sequence the builder
accepted, a location that was Constant during the appends is a
write-destination only of its initializer; `WeightVar::verify` makes no such
check and returns normally on every location. -/
theorem IRBuilder.constant_protection (sigOk : Instruction → Bool) :
    (∀ (b : IRBuilder) (I : Instruction) (L : WeightVar),
      L ∈ b.locations →
      L.getMutability = WeightVar.MutabilityKind.Constant →
      Operand.mk (OperandRef.location L.getName) true ∈ I.operands →
      I.initOf ≠ some L.getName →
      ∃ e, b.append sigOk I = Except.error e) ∧
    (∀ (locations : List WeightVar) (is : List Instruction) (b1 : IRBuilder),
      (IRBuilder.mk locations []).appendAll sigOk is = Except.ok b1 →
      b1.ConstantsProtected) ∧
    (∀ w : WeightVar, w.verify = Except.ok ()) := by
  refine ⟨?_, ?_, fun _ => rfl⟩
  · intro b I L hL hc ho hi
    have hflag := IRBuilder.writesConstant_of_mem b I L hL hc hi
    have hany : I.operands.any (b.writesConstant I) = true :=
      List.any_eq_true.2 ⟨_, ho, hflag⟩
    simp only [IRBuilder.append, hany, if_true]
    split_ifs <;> exact ⟨_, rfl⟩
  · intro locations is b1 h
    refine IRBuilder.appendAll_protected sigOk is (IRBuilder.mk locations []) b1 ?_ h
    intro I hI
    cases hI

/-- C5 (witness): the amended theorem at a unit with one Constant location `c`:
the instruction that writes `c` without being its initializer is rejected, and
`verify` returns normally on `c`. -/
theorem IRBuilder.constant_protection_witness :
    (∃ e, (IRBuilder.mk [WeightVar.ctor "c" (TypeRef.uniqueType ElemKind.FloatTy [4])
        WeightVar.MutabilityKind.Constant VisibilityKind.Private] []).append (fun _ => true)
        { kind := "copy", operands := [Operand.mk (OperandRef.location "c") true],
          initOf := none } = Except.error e) ∧
    (WeightVar.ctor "c" (TypeRef.uniqueType ElemKind.FloatTy [4])
        WeightVar.MutabilityKind.Constant VisibilityKind.Private).verify = Except.ok () :=
  ⟨(IRBuilder.constant_protection (fun _ => true)).1
      (IRBuilder.mk [WeightVar.ctor "c" (TypeRef.uniqueType ElemKind.FloatTy [4])
        WeightVar.MutabilityKind.Constant VisibilityKind.Private] [])
      { kind := "copy", operands := [Operand.mk (OperandRef.location "c") true],
        initOf := none }
      (WeightVar.ctor "c" (TypeRef.uniqueType ElemKind.FloatTy [4])
        WeightVar.MutabilityKind.Constant VisibilityKind.Private)
      (by simp) rfl (by simp [WeightVar.ctor, Value.getName]) (by simp),
   (IRBuilder.constant_protection (fun _ => true)).2.2 _⟩

/-! ### The helpers as programs -/

/-- Auxiliary: `inferBatchedAddNet` creates the same variables in both branches;
the branches differ in the output type alone. -/
theorem inferBatchedAddNet_eq (batch slice out : Tensor) (kind : BackendKind) :
    inferBatchedAddNet batch slice out kind =
    { params := [("batch", batch), ("slice", slice), ("out", out)],
      body :=
        [Stmt.newEngine kind,
         Stmt.createFunction "F" "main",
         Stmt.createVariable "batchVar" (VarFrom "batch" batch),
         Stmt.createVariable "sliceVar" (VarFrom "slice" slice),
         Stmt.createVariable "outVar" (VarFrom "out" out),
         Stmt.createNode "batchedadd" "F" NodeKind.BatchedAdd "batchedadd"
           [Arg.type (outputType batch out), Arg.value "batchVar", Arg.value "sliceVar"],
         Stmt.createNode "result" "F" NodeKind.Save "ret"
           [Arg.value "batchedadd", Arg.value "outVar"],
         Stmt.compile CompilationMode.Infer "F",
         Stmt.run ["batchVar", "sliceVar"] ["batch", "slice"],
         Stmt.copyResult "out" "result"] } := by
  unfold inferBatchedAddNet outputType
  split <;> rfl

/-- Auxiliary: `inferConvNet` creates the same variables in both branches; the
branches differ in the output type alone. -/
theorem inferConvNet_eq (inputs filter bias out : Tensor) (kind : BackendKind) :
    inferConvNet inputs filter bias out kind =
    { params := [("inputs", inputs), ("filter", filter), ("bias", bias), ("out", out)],
      body :=
        [Stmt.newEngine kind,
         Stmt.createFunction "F" "main",
         Stmt.createVariable "inputVar" (VarFrom "inputs" inputs),
         Stmt.createVariable "filterVar" (VarFrom "filter" filter),
         Stmt.createVariable "biasVar" (VarFrom "bias" bias),
         Stmt.createVariable "outVar" (VarFrom "out" out),
         Stmt.createNode "conv" "F" NodeKind.Conv "conv"
           [Arg.value "inputVar", Arg.value "filterVar", Arg.value "biasVar",
            Arg.type (outputType inputs out), Arg.size 5, Arg.size 3, Arg.size 4, Arg.size 1],
         Stmt.createNode "result" "F" NodeKind.Save "ret"
           [Arg.value "conv", Arg.value "outVar"],
         Stmt.compile CompilationMode.Infer "F",
         Stmt.run ["inputVar", "filterVar", "biasVar"] ["inputs", "filter", "bias"],
         Stmt.copyResult "out" "result"] } := by
  unfold inferConvNet outputType
  split <;> rfl

/-- Auxiliary: `inferMatMulNet` creates the same variables in both branches; the
branches differ in the output type alone. -/
theorem inferMatMulNet_eq (lhs rhs out : Tensor) (kind : BackendKind) :
    inferMatMulNet lhs rhs out kind =
    { params := [("lhs", lhs), ("rhs", rhs), ("out", out)],
      body :=
        [Stmt.newEngine kind,
         Stmt.createFunction "F" "main",
         Stmt.createVariable "lhsVar" (VarFrom "lhs" lhs),
         Stmt.createVariable "rhsVar" (VarFrom "rhs" rhs),
         Stmt.createVariable "outVar" (VarFrom "out" out),
         Stmt.createNode "matmul" "F" NodeKind.MatMul "matmul"
           [Arg.type (outputType lhs out), Arg.value "lhsVar", Arg.value "rhsVar"],
         Stmt.createNode "result" "F" NodeKind.Save "ret"
           [Arg.value "matmul", Arg.value "outVar"],
         Stmt.compile CompilationMode.Infer "F",
         Stmt.run ["lhsVar", "rhsVar"] ["lhs", "rhs"],
         Stmt.copyResult "out" "result"] } := by
  unfold inferMatMulNet outputType
  split <;> rfl

/-- Auxiliary: every helper executes the engine and ends with the copy of the
result. -/
theorem helpers_run_and_read (c : HelperCall) : c.program.runsAndReads = true := by
  cases c <;>
  simp only [HelperCall.program, inferBatchedAddNet_eq, inferConvNet_eq, inferMatMulNet_eq,
    inferBatchedReduceAddNet, trainConvNet, inferGatherNet, inferLocalResponseNormalizationNet,
    trainLocalResponseNormalizationNet, inferMaxNet, inferMinNet, inferPoolAvgNet,
    trainPoolAvgNet, inferPoolMaxNet, trainPoolMaxNet, inferQuantizeNet, inferReluNet,
    inferReshapeNet, inferSelectNet, inferSigmoidNet, inferSoftMaxNet, trainSoftMaxNet,
    inferTanhNet, inferBasicConvNet, inferBasicFCNet, inferMixedNet, inferComplexNet1] <;>
  rfl

set_option maxHeartbeats 4000000 in
/-- C6: in every helper, every variable in the binding list of an `EE.run` or
`EE.runBatch` call was declared through `VarFrom` of a tensor parameter and
carries `VisibilityKind::Public`, and some call does bind variables; in
`inferMixedNet` the variable `selected`, created with no visibility argument,
is in no binding list. -/
theorem helpers_bind_only_public :
    (∀ c : HelperCall,
      c.program.BindsOnlyPublic ∧
      (c.program.body.any fun s => !s.boundVars.isEmpty) = true) ∧
    (∀ (inputs out : Tensor) (kind : BackendKind),
      findVariable (inferMixedNet inputs out kind).body "selected"
        = some (Module.createVariableOfKind ElemKind.IndexTy [2, 1] "selected") ∧
      (Module.createVariableOfKind ElemKind.IndexTy [2, 1] "selected").visibility = none ∧
      (inferMixedNet inputs out kind).NeverBound "selected") := by
  refine ⟨fun c => ⟨?_, ?_⟩, fun inputs out kind => ⟨rfl, rfl, ?_⟩⟩
  · cases c <;>
    simp only [HelperCall.program, inferBatchedAddNet_eq, inferConvNet_eq, inferMatMulNet_eq,
    inferBatchedReduceAddNet, trainConvNet, inferGatherNet, inferLocalResponseNormalizationNet,
    trainLocalResponseNormalizationNet, inferMaxNet, inferMinNet, inferPoolAvgNet,
    trainPoolAvgNet, inferPoolMaxNet, trainPoolMaxNet, inferQuantizeNet, inferReluNet,
    inferReshapeNet, inferSelectNet, inferSigmoidNet, inferSoftMaxNet, trainSoftMaxNet,
    inferTanhNet, inferBasicConvNet, inferBasicFCNet, inferMixedNet, inferComplexNet1] <;>
    simp [Program.BindsOnlyPublic, Program.varFromParams, Stmt.boundVars, findVariable,
      VarFrom, Module.createVariable]
  · cases c <;>
    simp only [HelperCall.program, inferBatchedAddNet_eq, inferConvNet_eq, inferMatMulNet_eq,
    inferBatchedReduceAddNet, trainConvNet, inferGatherNet, inferLocalResponseNormalizationNet,
    trainLocalResponseNormalizationNet, inferMaxNet, inferMinNet, inferPoolAvgNet,
    trainPoolAvgNet, inferPoolMaxNet, trainPoolMaxNet, inferQuantizeNet, inferReluNet,
    inferReshapeNet, inferSelectNet, inferSigmoidNet, inferSoftMaxNet, trainSoftMaxNet,
    inferTanhNet, inferBasicConvNet, inferBasicFCNet, inferMixedNet, inferComplexNet1] <;>
    rfl
  · simp [Program.NeverBound, inferMixedNet, Stmt.boundVars]

/-! ### The update step -/

/-- C7: one update step yields `v' = m*v - r*(g + d*w)` and `w' = w + v'` for
every weight, gradient, velocity, momentum, learning rate and decay; the
configuration `trainConvNet` sets is `r = 0.03, m = 0.3, d = 0.01` whatever the
engine started with, and with it `w = 2.0, g = 0.5, v = 0.0` give exactly
`v' = -0.0156` and `w' = 1.9844` over the rationals. -/
theorem sgdUpdate_law :
    (∀ w g v m r d : ℚ,
      sgdUpdate { learningRate := r, momentum := m, L2Decay := d } w g v
        = (m * v - r * (g + d * w), w + (m * v - r * (g + d * w)))) ∧
    (∀ (inputs kernel1 bias1 kernel2 bias2 selected : Tensor) (shape1 shape2 : List Nat)
        (out : Tensor) (kind : BackendKind) (init : TrainingConfig),
      (trainConvNet inputs kernel1 bias1 kernel2 bias2 selected shape1 shape2 out kind).config init
        = { learningRate := 3 / 100, momentum := 3 / 10, L2Decay := 1 / 100 } ∧
      sgdUpdate
          ((trainConvNet inputs kernel1 bias1 kernel2 bias2 selected shape1 shape2 out
            kind).config init) 2 (1 / 2) 0
        = (-(156 / 10000), 19844 / 10000)) := by
  refine ⟨fun w g v m r d => rfl, ?_⟩
  intro inputs kernel1 bias1 kernel2 bias2 selected shape1 shape2 out kind init
  have hcfg :
      (trainConvNet inputs kernel1 bias1 kernel2 bias2 selected shape1 shape2 out kind).config init
        = { learningRate := 3 / 100, momentum := 3 / 10, L2Decay := 1 / 100 } := rfl
  refine ⟨hcfg, ?_⟩
  rw [hcfg]
  simp only [sgdUpdate, Prod.mk.injEq]
  constructor <;> norm_num

/-! ### Order of the engine operations -/

/-- Auxiliary: the left-to-right check decides the order property of the
statements that follow `pre`. -/
theorem engineOrderFrom_iff (body : List Stmt) (l pre : List Stmt) :
    engineOrderFrom body (lastCompile pre) (pre.any Stmt.isExec) l = true ↔
      ∀ (i : Nat) (s : Stmt), l.get? i = some s →
        stmtInOrder body (lastCompile (pre ++ l.take i)) ((pre ++ l.take i).any Stmt.isExec) s
          = true := by
  induction l generalizing pre with
  | nil => simp [engineOrderFrom]
  | cons a l ih =>
    have hstep : engineOrderFrom body (nextCompile (lastCompile pre) a)
        (pre.any Stmt.isExec || a.isExec) l
        = engineOrderFrom body (lastCompile (pre ++ [a])) ((pre ++ [a]).any Stmt.isExec) l := by
      simp [lastCompile, List.foldl_append]
    simp only [engineOrderFrom, Bool.and_eq_true, hstep, ih]
    constructor
    · rintro ⟨h0, hrest⟩ i s hs
      cases i with
      | zero =>
        simp only [List.get?_cons_zero, Option.some.injEq] at hs
        subst hs
        simpa using h0
      | succ j =>
        simp only [List.get?_cons_succ] at hs
        have := hrest j s hs
        simpa using this
    · intro h
      refine ⟨?_, ?_⟩
      · simpa using h 0 a rfl
      · intro j s hs
        have := h (j + 1) s (by simpa using hs)
        simpa using this

/-- Auxiliary: a trace that passes the left-to-right check is in order. -/
theorem engineOrder_of_check (body : List Stmt)
    (h : engineOrderFrom body none false body = true) : EngineOrder body := by
  intro i s hs
  have := (engineOrderFrom_iff body body []).1 h i s hs
  simpa using this

/-- C8: in every helper, each `EE.run` / `EE.runBatch` has an `EE.compile`
before it; the copy of the result has a `run` / `runBatch` before it, and the
last compile before that copy is `compile(Infer, F)` for the function `F` on
which the save node read was created; every helper does execute the engine,
and that copy is its last statement. -/
theorem helpers_engine_order (c : HelperCall) :
    EngineOrder c.program.body ∧ c.program.runsAndReads = true := by
  refine ⟨?_, ?_⟩
  · apply engineOrder_of_check
    cases c <;>
    simp only [HelperCall.program, inferBatchedAddNet_eq, inferConvNet_eq, inferMatMulNet_eq,
    inferBatchedReduceAddNet, trainConvNet, inferGatherNet, inferLocalResponseNormalizationNet,
    trainLocalResponseNormalizationNet, inferMaxNet, inferMinNet, inferPoolAvgNet,
    trainPoolAvgNet, inferPoolMaxNet, trainPoolMaxNet, inferQuantizeNet, inferReluNet,
    inferReshapeNet, inferSelectNet, inferSigmoidNet, inferSoftMaxNet, trainSoftMaxNet,
    inferTanhNet, inferBasicConvNet, inferBasicFCNet, inferMixedNet, inferComplexNet1] <;>
    rfl
  · exact helpers_run_and_read c

/-! ### The training pipeline -/

/-- C9: every `train...` helper is a build phase on the function `F` followed
by exactly: differentiate `F` into `TF`, `compile(Train, TF)`, `runBatch(n, ...)`
with `n ≥ 1`, `compile(Infer, F)`, one inference execution (`run`, or `runBatch`
with `n = 1`) binding the same variables to the same tensors as the training
execution, and the copy of the result from a save node of `F`. -/
theorem train_helpers_pipeline (c : HelperCall) (h : c.isTrain = true) :
    c.program.TrainingPipeline := by
  cases c <;> first
    | (exfalso; revert h; simp [HelperCall.isTrain]; done)
    | exact ⟨"F", "TF", "main", 8, ["var1", "var2"], ["inputs", "selected"],
        Stmt.run ["var1", "var2"] ["inputs", "selected"], "out", "result",
        rfl, rfl, rfl, rfl, by decide, by decide, Or.inl rfl, rfl⟩
    | exact ⟨"F", "TF", "main", 8, ["var1", "var2"], ["inputs", "selected"],
        Stmt.runBatch 1 ["var1", "var2"] ["inputs", "selected"], "out", "result",
        rfl, rfl, rfl, rfl, by decide, by decide, Or.inr rfl, rfl⟩
    | exact ⟨"F", "TF", "main", 10, ["var1", "var2"], ["inputs", "selected"],
        Stmt.run ["var1", "var2"] ["inputs", "selected"], "out", "result",
        rfl, rfl, rfl, rfl, by decide, by decide, Or.inl rfl, rfl⟩
    | exact ⟨"F", "TF", "main", 7, ["var1", "var2"], ["inputs", "selected"],
        Stmt.runBatch 1 ["var1", "var2"] ["inputs", "selected"], "out", "result",
        rfl, rfl, rfl, rfl, by decide, by decide, Or.inr rfl, rfl⟩
    | exact ⟨"F", "TF", "main", 30, ["var1", "var2"], ["inputs", "selected"],
        Stmt.run ["var1", "var2"] ["inputs", "selected"], "out", "result",
        rfl, rfl, rfl, rfl, by decide, by decide, Or.inl rfl, rfl⟩

/-- C9 (witness): `trainSoftMaxNet` on float tensors is a `train...` helper and
follows the pipeline. -/
theorem train_helpers_pipeline_witness :
    (HelperCall.trainSoftMaxNet
        (Tensor.mk (Ty.mk ElemKind.FloatTy [1, 2] 0 0))
        (Tensor.mk (Ty.mk ElemKind.FloatTy [2, 3] 0 0))
        (Tensor.mk (Ty.mk ElemKind.FloatTy [3] 0 0))
        (Tensor.mk (Ty.mk ElemKind.IndexTy [1, 1] 0 0))
        (Tensor.mk (Ty.mk ElemKind.FloatTy [1, 3] 0 0))
        (BackendKind.mk 0)).isTrain = true ∧
    (HelperCall.trainSoftMaxNet
        (Tensor.mk (Ty.mk ElemKind.FloatTy [1, 2] 0 0))
        (Tensor.mk (Ty.mk ElemKind.FloatTy [2, 3] 0 0))
        (Tensor.mk (Ty.mk ElemKind.FloatTy [3] 0 0))
        (Tensor.mk (Ty.mk ElemKind.IndexTy [1, 1] 0 0))
        (Tensor.mk (Ty.mk ElemKind.FloatTy [1, 3] 0 0))
        (BackendKind.mk 0)).program.TrainingPipeline :=
  ⟨rfl, train_helpers_pipeline _ rfl⟩

/-! ### Bindings -/

set_option maxHeartbeats 4000000 in
/-- C10: in every `EE.run` / `EE.runBatch` call of every helper the variable
list and the tensor list have the same length, and position by position
`VarFrom` declared the variable from the tensor at that position, so that its
type is that tensor's type; some call does bind variables. -/
theorem helpers_bindings_match (c : HelperCall) :
    c.program.BindingsMatch ∧
    (c.program.body.any fun s => !s.boundVars.isEmpty) = true := by
  refine ⟨?_, ?_⟩
  · cases c <;>
    simp only [HelperCall.program, inferBatchedAddNet_eq, inferConvNet_eq, inferMatMulNet_eq,
    inferBatchedReduceAddNet, trainConvNet, inferGatherNet, inferLocalResponseNormalizationNet,
    trainLocalResponseNormalizationNet, inferMaxNet, inferMinNet, inferPoolAvgNet,
    trainPoolAvgNet, inferPoolMaxNet, trainPoolMaxNet, inferQuantizeNet, inferReluNet,
    inferReshapeNet, inferSelectNet, inferSigmoidNet, inferSoftMaxNet, trainSoftMaxNet,
    inferTanhNet, inferBasicConvNet, inferBasicFCNet, inferMixedNet, inferComplexNet1] <;>
    simp [Program.BindingsMatch, Program.VarMatchesTensor, Stmt.boundVars, Stmt.boundTensors,
      findVariable, VarFrom, Module.createVariable, Tensor.getType]
  · cases c <;>
    simp only [HelperCall.program, inferBatchedAddNet_eq, inferConvNet_eq, inferMatMulNet_eq,
    inferBatchedReduceAddNet, trainConvNet, inferGatherNet, inferLocalResponseNormalizationNet,
    trainLocalResponseNormalizationNet, inferMaxNet, inferMinNet, inferPoolAvgNet,
    trainPoolAvgNet, inferPoolMaxNet, trainPoolMaxNet, inferQuantizeNet, inferReluNet,
    inferReshapeNet, inferSelectNet, inferSigmoidNet, inferSoftMaxNet, trainSoftMaxNet,
    inferTanhNet, inferBasicConvNet, inferBasicFCNet, inferMixedNet, inferComplexNet1] <;>
    rfl

/-! ### Output types -/

/-- Auxiliary: a node created with `outputType first out` has its output type
made from `out` as `Program.OutputTypeFrom` says. -/
theorem outputTypeFrom_of_nodeType (p : Program) (node : String) (first out : Tensor)
    (h : nodeType p.body node = some (outputType first out)) :
    p.OutputTypeFrom node first out := by
  unfold Program.OutputTypeFrom
  rw [h]
  unfold outputType
  split <;> exact ⟨rfl, rfl, rfl, rfl⟩

/-- C11: in `inferBatchedAddNet`, `inferConvNet` and `inferMatMulNet` the
output type `OT` of the operator has the element kind and dimensions of `out`;
when the first tensor is of a quantized type it is made with exactly the scale
and offset of `out`, otherwise from element kind and dimensions alone; both
branches create the same list of variables. -/
theorem quantized_output_types :
    (∀ (batch slice out : Tensor) (kind : BackendKind),
      (inferBatchedAddNet batch slice out kind).OutputTypeFrom "batchedadd" batch out ∧
      declaredVariables (inferBatchedAddNet batch slice out kind).body =
        [("batchVar", VarFrom "batch" batch), ("sliceVar", VarFrom "slice" slice),
         ("outVar", VarFrom "out" out)]) ∧
    (∀ (inputs filter bias out : Tensor) (kind : BackendKind),
      (inferConvNet inputs filter bias out kind).OutputTypeFrom "conv" inputs out ∧
      declaredVariables (inferConvNet inputs filter bias out kind).body =
        [("inputVar", VarFrom "inputs" inputs), ("filterVar", VarFrom "filter" filter),
         ("biasVar", VarFrom "bias" bias), ("outVar", VarFrom "out" out)]) ∧
    (∀ (lhs rhs out : Tensor) (kind : BackendKind),
      (inferMatMulNet lhs rhs out kind).OutputTypeFrom "matmul" lhs out ∧
      declaredVariables (inferMatMulNet lhs rhs out kind).body =
        [("lhsVar", VarFrom "lhs" lhs), ("rhsVar", VarFrom "rhs" rhs),
         ("outVar", VarFrom "out" out)]) := by
  refine ⟨?_, ?_, ?_⟩
  · intro batch slice out kind
    rw [inferBatchedAddNet_eq]
    exact ⟨outputTypeFrom_of_nodeType _ _ _ _ rfl, rfl⟩
  · intro inputs filter bias out kind
    rw [inferConvNet_eq]
    exact ⟨outputTypeFrom_of_nodeType _ _ _ _ rfl, rfl⟩
  · intro lhs rhs out kind
    rw [inferMatMulNet_eq]
    exact ⟨outputTypeFrom_of_nodeType _ _ _ _ rfl, rfl⟩

/-! ### Data flow into the save node -/

/-- Auxiliary: what one statement of the program reads for `x` is among the
direct inputs of `x` over the program. -/
theorem mem_directInputs_of_mem (body : List Stmt) (s : Stmt) (x y : String)
    (hs : s ∈ body) (hy : y ∈ s.inputsOf x) : y ∈ directInputs body x := by
  induction body with
  | nil => cases hs
  | cons t rest ih =>
    simp only [directInputs, List.mem_append]
    rcases List.mem_cons.1 hs with h | h
    · subst h
      exact Or.inl hy
    · exact Or.inr (ih h)

/-- Auxiliary: dependence extends by one more direct read at the far end. -/
theorem DependsOn.snoc {body : List Stmt} {x y z : String}
    (h : DependsOn body x y) (hz : z ∈ directInputs body y) : DependsOn body x z := by
  induction h with
  | direct hxy => exact DependsOn.step hxy (DependsOn.direct hz)
  | step hxy _ ih => exact DependsOn.step hxy (ih hz)

/-- Auxiliary: the backward pass only collects `r` and locals that `r` depends
on, over any run of statements taken from the program. -/
theorem foldl_need_sound (body : List Stmt) (r : String) (l : List Stmt)
    (hl : ∀ s ∈ l, s ∈ body) (needed : List String)
    (hinv : ∀ y ∈ needed, y = r ∨ DependsOn body r y) :
    ∀ y ∈ l.foldl Stmt.need needed, y = r ∨ DependsOn body r y := by
  induction l generalizing needed with
  | nil => simpa using hinv
  | cons s rest ih =>
    simp only [List.foldl_cons]
    apply ih (fun t ht => hl t (List.mem_cons_of_mem _ ht))
    intro y hy
    cases s with
    | createNode x F kind name args =>
      simp only [Stmt.need] at hy
      split at hy
      · rename_i hx
        rcases List.mem_append.1 hy with hnew | hold
        · have hxn : x ∈ needed := by simpa using hx
          have hread : y ∈ directInputs body x :=
            mem_directInputs_of_mem body (Stmt.createNode x F kind name args) x y
              (hl _ (List.mem_cons_self _ _)) (by simpa [Stmt.inputsOf] using hnew)
          rcases hinv x hxn with hxr | hdep
          · subst hxr
            exact Or.inr (DependsOn.direct hread)
          · exact Or.inr (hdep.snoc hread)
        · exact hinv y hold
      · exact hinv y hy
    | _ => exact hinv y hy

/-- Auxiliary: every local the backward pass from `r` collects is `r` or
something `r` depends on. -/
theorem neededFor_sound (body : List Stmt) (r y : String) (hy : y ∈ neededFor body r) :
    y = r ∨ DependsOn body r y := by
  refine foldl_need_sound body r body.reverse (fun s hs => List.mem_reverse.1 hs) [r] ?_ y hy
  intro z hz
  exact Or.inl (List.mem_singleton.1 hz)

/-- Auxiliary: a set of locals that contains everything its members read
contains everything its members depend on. -/
theorem dependsOn_mem_of_closed (body : List Stmt) (S : List String)
    (hS : closedUnderInputs body S = true) {x z : String} (hx : x ∈ S)
    (hd : DependsOn body x z) : z ∈ S := by
  have hclosed : ∀ a ∈ S, ∀ b ∈ directInputs body a, b ∈ S := by
    simpa [closedUnderInputs] using hS
  induction hd with
  | direct hxy => exact hclosed _ hx _ hxy
  | step hxy _ ih => exact ih (hclosed _ hx _ hxy)

/-- Auxiliary: a program whose backward pass from the save node reaches every
operator node has no dead operator. -/
theorem noDeadOperators_of_check (p : Program) (r F : String)
    (hr : p.resultLocal = some r) (hF : saveFunction p.body r = some F)
    (hsave : (operatorNodes p.body F).contains r = false)
    (hu : unreachedOperators p.body F r = []) : p.NoDeadOperators := by
  refine ⟨r, F, hr, hF, ?_⟩
  intro x hx
  have hreach : x ∈ neededFor p.body r := by
    have := List.filter_eq_nil_iff.1 hu x hx
    simpa using this
  rcases neededFor_sound p.body r x hreach with h | h
  · subst h
    have : (operatorNodes p.body F).contains x = true := by simpa using hx
    rw [hsave] at this
    cases this
  · exact h

/-- Auxiliary: every helper but `inferBasicFCNet` saves a value that depends on
every operator node it creates. -/
theorem helpers_no_dead_operators (c : HelperCall) (h : c.isInferBasicFCNet = false) :
    c.program.NoDeadOperators := by
  cases c <;> first
    | (exfalso; revert h; simp [HelperCall.isInferBasicFCNet]; done)
    | (apply noDeadOperators_of_check _ "result" "F" <;>
        simp only [HelperCall.program, inferBatchedAddNet_eq, inferConvNet_eq,
          inferMatMulNet_eq, inferBatchedReduceAddNet, trainConvNet, inferGatherNet,
          inferLocalResponseNormalizationNet, trainLocalResponseNormalizationNet, inferMaxNet,
          inferMinNet, inferPoolAvgNet, trainPoolAvgNet, inferPoolMaxNet, trainPoolMaxNet,
          inferQuantizeNet, inferReluNet, inferReshapeNet, inferSelectNet, inferSigmoidNet,
          inferSoftMaxNet, trainSoftMaxNet, inferTanhNet, inferBasicConvNet, inferMixedNet,
          inferComplexNet1] <;>
        rfl)

/-- Auxiliary: in `inferBasicFCNet`, on every input, the save node depends on
neither `fc2` nor `rl0`. -/
theorem inferBasicFCNet_not_dependsOn (inputs out : Tensor) (kind : BackendKind) :
    ¬ DependsOn (inferBasicFCNet inputs out kind).body "result" "fc2" ∧
    ¬ DependsOn (inferBasicFCNet inputs out kind).body "result" "rl0" := by
  have hS : closedUnderInputs (inferBasicFCNet inputs out kind).body
      ["result", "rl1", "fc", "tr", "var"] = true := rfl
  constructor
  · intro hd
    have := dependsOn_mem_of_closed _ _ hS (by simp) hd
    simp at this
  · intro hd
    have := dependsOn_mem_of_closed _ _ hS (by simp) hd
    simp at this

/-- C12 (the code at the failing input): `inferBasicFCNet` on a float input
reads its result from the save node `result` of `F`; the operator nodes on `F`
are `tr`, `fc`, `rl0`, `fc2`, `rl1`; the save node reads `rl1`, which reads
`fc`, which reads `tr`; the saved value depends on `rl1`, `fc` and `tr`, and
depends neither on the second fully-connected layer `fc2` nor on the first RELU
`rl0`, so the helper has dead operators. -/
theorem inferBasicFCNet_dead_operators :
    (inferBasicFCNet basicFCInputs basicFCOut (BackendKind.mk 0)).resultLocal = some "result" ∧
    saveFunction (inferBasicFCNet basicFCInputs basicFCOut (BackendKind.mk 0)).body "result"
      = some "F" ∧
    operatorNodes (inferBasicFCNet basicFCInputs basicFCOut (BackendKind.mk 0)).body "F"
      = ["tr", "fc", "rl0", "fc2", "rl1"] ∧
    directInputs (inferBasicFCNet basicFCInputs basicFCOut (BackendKind.mk 0)).body "result"
      = ["rl1"] ∧
    directInputs (inferBasicFCNet basicFCInputs basicFCOut (BackendKind.mk 0)).body "rl1"
      = ["fc"] ∧
    directInputs (inferBasicFCNet basicFCInputs basicFCOut (BackendKind.mk 0)).body "fc2"
      = ["rl0"] ∧
    DependsOn (inferBasicFCNet basicFCInputs basicFCOut (BackendKind.mk 0)).body "result" "rl1" ∧
    DependsOn (inferBasicFCNet basicFCInputs basicFCOut (BackendKind.mk 0)).body "result" "fc" ∧
    DependsOn (inferBasicFCNet basicFCInputs basicFCOut (BackendKind.mk 0)).body "result" "tr" ∧
    ¬ DependsOn (inferBasicFCNet basicFCInputs basicFCOut (BackendKind.mk 0)).body
        "result" "fc2" ∧
    ¬ DependsOn (inferBasicFCNet basicFCInputs basicFCOut (BackendKind.mk 0)).body
        "result" "rl0" ∧
    ¬ (inferBasicFCNet basicFCInputs basicFCOut (BackendKind.mk 0)).NoDeadOperators := by
  have hno := inferBasicFCNet_not_dependsOn basicFCInputs basicFCOut (BackendKind.mk 0)
  have h1 : DependsOn (inferBasicFCNet basicFCInputs basicFCOut (BackendKind.mk 0)).body
      "result" "rl1" := DependsOn.direct (by decide)
  have h2 : DependsOn (inferBasicFCNet basicFCInputs basicFCOut (BackendKind.mk 0)).body
      "result" "fc" := h1.snoc (by decide)
  have h3 : DependsOn (inferBasicFCNet basicFCInputs basicFCOut (BackendKind.mk 0)).body
      "result" "tr" := h2.snoc (by decide)
  refine ⟨rfl, rfl, rfl, rfl, rfl, rfl, h1, h2, h3, hno.1, hno.2, ?_⟩
  rintro ⟨r, F, hr, hF, hall⟩
  have hr1 : r = "result" := by
    have : (inferBasicFCNet basicFCInputs basicFCOut (BackendKind.mk 0)).resultLocal
        = some "result" := rfl
    rw [this] at hr
    exact (Option.some.inj hr).symm
  subst hr1
  have hF1 : F = "F" := by
    have : saveFunction (inferBasicFCNet basicFCInputs basicFCOut (BackendKind.mk 0)).body
        "result" = some "F" := rfl
    rw [this] at hF
    exact (Option.some.inj hF).symm
  subst hF1
  exact hno.1 (hall "fc2" (by decide))

/-! ### The two setters together -/

/-- C13: the two tag setters commute, and a second `setMutability` overwrites
the first: `setMutability(m)` then `setVisibility(v)` gives the same object as
`setVisibility(v)` then `setMutability(m)`, and `setMutability(m)` then
`setMutability(m')` gives the same object as `setMutability(m')` alone. -/
theorem WeightVar.setters_commute (w : WeightVar) (m m' : WeightVar.MutabilityKind)
    (v : VisibilityKind) :
    (w.setMutability m).setVisibility v = (w.setVisibility v).setMutability m ∧
    (w.setMutability m).setMutability m' = w.setMutability m' :=
  ⟨rfl, rfl⟩

end glow
